import Mathlib

/-!
Shallow embedding of the admin product-catalog endpoints of
`app/presentation/api/admin/endpoints/products.py` together with the DTO
shapes of `app/application/dto/admin_product.py` and the SQLAlchemy rows of
`app/domain/models/product.py` / `app/domain/models/order_item.py`.

Modelling conventions:
* SQL rows become Lean structures; only the columns the modelled endpoints
  read or write are kept (columns such as `original_price`, `thumbnail`,
  `currency`, `material` are never touched by these endpoints).
* The database is a record of row lists plus per-table auto-increment
  counters; list order is insertion order, which is what an unordered
  `SELECT` returns for these tables.
* Python `float` prices are modelled as `ℚ` (the endpoints only compare,
  take minima and copy prices, all of which are exact), stocks as `ℤ`,
  timestamps as an abstract `Nat` tick supplied by the caller (the code
  calls `datetime.utcnow()`).
* Fallible endpoints return `Except AdminAPIError …`; raising inside the
  `async with db.begin()` transaction rolls everything back, so an `error`
  result carries no state, matching the source's all-or-nothing commits.
* Junction (`variant_attribute_values`) and `product_images` rows are kept
  without their surrogate primary keys: no modelled code path ever reads
  those ids.
* Store-level unique constraints (`products.slug`, `product_variants.sku`,
  `(product_id, name)`, `(attribute_id, value)`) are not re-enforced by the
  model; the endpoints pre-check them, and theorems that insert rows carry
  the matching `Nodup` hypotheses.
-/

namespace Catalog

/-- `app/core/admin_api_error.py` : `AdminAPIError(error_code, message, status_code=400)`. -/
structure AdminAPIError where
  error_code : String
  message : String
  status_code : Nat
deriving DecidableEq

/-- Row of table `products` (columns touched by the admin endpoints). -/
structure ProductRow where
  id : Nat
  name : String
  slug : String
  short_description : Option String
  description : Option String
  status : String
  featured : Bool
  tags : Option (List String)
  has_variants : Bool
  deleted_at : Option Nat
  price : ℚ
  sku : Option String
  is_active : Bool
  affiliate : Option Int
  stock : Int
  brand : Option String
  pet_type : Option String
  season : Option String
  height : Option ℚ
  width : Option ℚ
  length : Option ℚ
  weight : Option ℚ
  category_id : Option Int
  updated_at : Nat
deriving DecidableEq

/-- Row of table `product_variants`. -/
structure VariantRow where
  id : Nat
  product_id : Nat
  sku : String
  price : Option ℚ
  compare_price : Option ℚ
  cost_price : Option ℚ
  stock : Int
  manage_stock : Bool
  allow_backorder : Bool
  status : String
  is_active : Bool
  image_url : Option String
  updated_at : Nat
deriving DecidableEq

/-- Row of table `product_attributes`. -/
structure AttributeRow where
  id : Nat
  product_id : Nat
  name : String
deriving DecidableEq

/-- Row of table `product_attribute_values`. -/
structure AttributeValueRow where
  id : Nat
  attribute_id : Nat
  value : String
deriving DecidableEq

/-- Row of table `variant_attribute_values` (surrogate id omitted, never read). -/
structure VavRow where
  variant_id : Nat
  attribute_id : Nat
  attribute_value_id : Nat
deriving DecidableEq

/-- Row of table `product_images` (surrogate id omitted, never read). -/
structure ImageRow where
  product_id : Nat
  url : String
  type : String
  sort_order : Int
  is_primary : Bool
deriving DecidableEq

/-- Row of table `order_items` (only the column the admin product code reads). -/
structure OrderItemRow where
  id : Nat
  product_variant_id : Option Nat
deriving DecidableEq

/-- The catalog store: row lists plus per-table auto-increment counters. -/
structure DB where
  products : List ProductRow
  variants : List VariantRow
  attributes : List AttributeRow
  attributeValues : List AttributeValueRow
  variantAttributeValues : List VavRow
  images : List ImageRow
  orderItems : List OrderItemRow
  nextProductId : Nat
  nextVariantId : Nat
  nextAttributeId : Nat
  nextAttributeValueId : Nat
deriving DecidableEq

/-! DTO shapes from `app/application/dto/admin_product.py`. -/

/-- `ShippingDTO`. -/
structure ShippingDTO where
  weight : ℚ
  length : ℚ
  width : ℚ
  height : ℚ
deriving DecidableEq

/-- `MediaItemDTO`. -/
structure MediaItemDTO where
  url : String
  type : String
  sort_order : Int
deriving DecidableEq

/-- `AttributeDTO`. -/
structure AttributeDTO where
  id : Option Nat
  name : String
  values : List String
deriving DecidableEq

/-- `VariantDTO`; `attribute_values` is a Python dict, modelled as an
association list in insertion order (dict keys are unique). -/
structure VariantDTO where
  id : Option Nat
  sku : String
  price : ℚ
  compare_price : Option ℚ
  cost_price : Option ℚ
  stock : Int
  manage_stock : Bool
  allow_backorder : Bool
  status : String
  attribute_values : List (String × String)
  image_url : Option String
deriving DecidableEq

/-- `AdminProductCreateBody`. -/
structure AdminProductCreateBody where
  name : String
  slug : String
  short_description : Option String
  description : Option String
  status : String
  featured : Bool
  category_id : Int
  brand : Option String
  pet_type : Option String
  season : Option String
  tags : List String
  has_variants : Bool
  shipping : ShippingDTO
  media : List MediaItemDTO
  attributes : List AttributeDTO
  variants : List VariantDTO
deriving DecidableEq

/-- `AdminProductUpdateBody`. -/
structure AdminProductUpdateBody where
  name : Option String
  slug : Option String
  short_description : Option String
  description : Option String
  status : Option String
  featured : Option Bool
  category_id : Option Int
  brand : Option String
  pet_type : Option String
  season : Option String
  tags : Option (List String)
  has_variants : Option Bool
  shipping : Option ShippingDTO
  media : Option (List MediaItemDTO)
  attributes : Option (List AttributeDTO)
  variants : Option (List VariantDTO)
  deleted_variant_ids : List Nat
  deleted_attribute_ids : List Nat
deriving DecidableEq

/-- `AdminVariantPatchBody`. -/
structure AdminVariantPatchBody where
  price : Option ℚ
  cost_price : Option ℚ
  stock : Option Int
  status : Option String
deriving DecidableEq

/-- JSON-ish value for the untyped `data: Dict[str, Any]` bag of the bulk endpoint. -/
inductive JVal where
  | null : JVal
  | str : String → JVal
  | int : Int → JVal
deriving DecidableEq

/-- `BulkProductAction = Literal["status", "delete", "category", "affiliate"]`. -/
inductive BulkAction where
  | status : BulkAction
  | delete : BulkAction
  | category : BulkAction
  | affiliate : BulkAction
deriving DecidableEq

/-- `AdminBulkProductsBody`. -/
structure AdminBulkProductsBody where
  ids : List Nat
  action : BulkAction
  data : List (String × JVal)
deriving DecidableEq

/-! Small helpers shared by the endpoint models. -/

/-- Association-list lookup; entries are prepended on insertion, so the first
match is the most recent binding (Python dict overwrite semantics). -/
def alistGet {α β : Type} [DecidableEq α] : List (α × β) → α → Option β
  | [], _ => none
  | (k, v) :: rest, a => if k = a then some v else alistGet rest a

/-- Python truthiness of an `Optional[int]` id: `None` and `0` are falsy. -/
def truthyNat : Option Nat → Bool
  | none => false
  | some n => n != 0

/-- Python `min` over a non-empty list (the `[]` case never arises where used;
Python would raise there, which callers translate to a 500). -/
def pyMin : List ℚ → ℚ
  | [] => 0
  | x :: xs => xs.foldl min x

/-- Python `sum` over a list of ints. -/
def sumInt (l : List Int) : Int := l.foldl (· + ·) 0

/-- `_stock_status` (products.py lines 71-76). -/
def stockStatus (stock_total : Int) : String :=
  if stock_total ≤ 0 then "out"
  else if stock_total < 10 then "low"
  else "in_stock"

/-- `itertools.product` over lists: first list varies slowest. -/
def cartesianProd : List (List String) → List (List String)
  | [] => [[]]
  | l :: rest => l.flatMap (fun x => (cartesianProd rest).map (fun c => x :: c))

/-- Python dict insertion: overwriting an existing key keeps its position,
a fresh key is appended. -/
def dictInsert (d : List (String × String)) (k v : String) : List (String × String) :=
  if d.any (fun p => p.1 == k) then
    d.map (fun p => if p.1 == k then (k, v) else p)
  else d ++ [(k, v)]

/-- Build a Python dict from a pair list by repeated insertion. -/
def dictOfPairs (l : List (String × String)) : List (String × String) :=
  l.foldl (fun d p => dictInsert d p.1 p.2) []

/-- `admin_generate_variants` (products.py lines 920-937): keeps attributes
whose name and value list are both truthy (non-empty), returns `[]` when none
remain, else maps each cartesian combination to its `{name: value}` dict. -/
def generateVariants (attrs : List AttributeDTO) : List (List (String × String)) :=
  let attrs' := attrs.filter (fun a => a.name != "" && !a.values.isEmpty)
  if attrs'.isEmpty then []
  else
    let names := attrs'.map (·.name)
    (cartesianProd (attrs'.map (·.values))).map (fun combo => dictOfPairs (names.zip combo))

/-! Store queries shared by the endpoints. -/

/-- `db.get(Product, product_id)` / `by_id.get(product_id)`: first row of
`products` with the given id (ids are unique in practice). -/
def getById (db : DB) (pid : Nat) : Option ProductRow :=
  db.products.find? (fun pr => pr.id == pid)

/-- The product-fetch of `_get_product_or_404` (products.py lines 437-455)
without the raise: `none` when the row is missing or soft-deleted. -/
def findLive (db : DB) (pid : Nat) : Option ProductRow :=
  match getById db pid with
  | none => none
  | some pr => if pr.deleted_at = none then some pr else none

/-- `_slug_exists` (products.py lines 261-265): counts every `products` row
with the slug — soft-deleted rows included — minus the optional exclusion. -/
def slugExists (db : DB) (slug : String) (exclude_product_id : Option Nat) : Bool :=
  db.products.any (fun pr =>
    pr.slug == slug &&
    (match exclude_product_id with
     | some i => pr.id != i
     | none => true))

/-- `_skus_in_use` (products.py lines 268-275): skus of variants whose sku is
in the list and whose id is not excluded. (The source wraps the result in
`list(set(...))`; only emptiness and one sample element are ever consumed, so
the deduplication is dropped here.) -/
def skusInUse (db : DB) (skus : List String) (exclude_variant_ids : List Nat) : List String :=
  if skus.isEmpty then []
  else
    (db.variants.filter (fun v =>
      skus.contains v.sku && !exclude_variant_ids.contains v.id)).map (·.sku)

/-! Validation (`_validate_create_payload`, products.py lines 278-301). -/

/-- The per-variant loop of `_validate_create_payload`: sku required, sku not
seen before in this request, price strictly positive. -/
def validateCreateVariants : List VariantDTO → List String → Except AdminAPIError Unit
  | [], _ => .ok ()
  | v :: rest, seen =>
    if v.sku = "" then
      .error ⟨"SKU_REQUIRED", "variant.sku is required", 400⟩
    else if seen.contains v.sku then
      .error ⟨"SKU_DUPLICATE", "SKU already exists in request", 400⟩
    else if v.price ≤ 0 then
      .error ⟨"PRICE_INVALID", "variant.price must be > 0", 400⟩
    else
      validateCreateVariants rest (v.sku :: seen)

/-- `_validate_create_payload`. -/
def validateCreatePayload (p : AdminProductCreateBody) : Except AdminAPIError Unit :=
  if p.name = "" then
    .error ⟨"NAME_REQUIRED", "name is required", 400⟩
  else if p.has_variants = false then
    if p.variants.length ≠ 1 then
      .error ⟨"DEFAULT_VARIANT_REQUIRED", "has_variants=false requires exactly 1 default variant", 400⟩
    else validateCreateVariants p.variants []
  else
    if p.variants.isEmpty then
      .error ⟨"VARIANTS_REQUIRED", "variants is required when has_variants=true", 400⟩
    else validateCreateVariants p.variants []

/-! Create (`admin_create_product`, products.py lines 543-661). -/

/-- Insert one `product_attribute_values` row with a fresh id and record its
`(attribute name, value) → id` binding; shared by create (lines 611-615) and
the value-replacement step of update (lines 756-760). -/
def insertAttrValue (aid : Nat) (name : String)
    (acc : DB × List ((String × String) × Nat)) (val : String) :
    DB × List ((String × String) × Nat) :=
  let vid := acc.1.nextAttributeValueId
  ({ acc.1 with
      attributeValues := acc.1.attributeValues ++ [⟨vid, aid, val⟩],
      nextAttributeValueId := vid + 1 },
   ((name, val), vid) :: acc.2)

/-- The attributes-then-values insertion loop of create (lines 601-615):
pure fold that inserts rows with fresh ids and builds the two lookup dicts
`attribute_by_name` (name → attribute id) and `value_id_by_pair`. -/
def createAttrs (db : DB) (pid : Nat) :
    List AttributeDTO → List (String × Nat) → List ((String × String) × Nat) →
    DB × List (String × Nat) × List ((String × String) × Nat)
  | [], abn, vip => (db, abn, vip)
  | a :: rest, abn, vip =>
    let aid := db.nextAttributeId
    let db1 := { db with
      attributes := db.attributes ++ [⟨aid, pid, a.name⟩],
      nextAttributeId := aid + 1 }
    let step := a.values.foldl (insertAttrValue aid a.name) (db1, vip)
    createAttrs step.1 pid rest ((a.name, aid) :: abn) step.2

/-- The per-variant junction resolution of create (lines 635-649): create
checks the attribute name first (`ATTRIBUTE_INVALID`), then the pair
(`ATTRIBUTE_VALUE_INVALID`). -/
def createJunctions (vid : Nat) (abn : List (String × Nat))
    (vip : List ((String × String) × Nat)) :
    List (String × String) → Except AdminAPIError (List VavRow)
  | [] => .ok []
  | (attr_name, chosen) :: rest =>
    match alistGet abn attr_name with
    | none => .error ⟨"ATTRIBUTE_INVALID", "Unknown attribute: " ++ attr_name, 400⟩
    | some aid =>
      match alistGet vip (attr_name, chosen) with
      | none => .error ⟨"ATTRIBUTE_VALUE_INVALID", "Invalid value for " ++ attr_name ++ ": " ++ chosen, 400⟩
      | some valId =>
        match createJunctions vid abn vip rest with
        | .error e => .error e
        | .ok rows => .ok (⟨vid, aid, valId⟩ :: rows)

/-- The variant insertion loop of create (lines 617-649). -/
def createVariants (db : DB) (pid : Nat) (abn : List (String × Nat))
    (vip : List ((String × String) × Nat)) (now : Nat) :
    List VariantDTO → Except AdminAPIError DB
  | [] => .ok db
  | v :: rest =>
    let vid := db.nextVariantId
    let row : VariantRow :=
      { id := vid, product_id := pid, sku := v.sku, price := some v.price,
        compare_price := v.compare_price, cost_price := v.cost_price,
        stock := v.stock, manage_stock := v.manage_stock,
        allow_backorder := v.allow_backorder, status := v.status,
        is_active := v.status == "active", image_url := v.image_url,
        updated_at := now }
    match createJunctions vid abn vip v.attribute_values with
    | .error e => .error e
    | .ok juncs =>
      createVariants
        { db with
          variants := db.variants ++ [row],
          variantAttributeValues := db.variantAttributeValues ++ juncs,
          nextVariantId := vid + 1 }
        pid abn vip now rest

/-- `admin_create_product`: validation, slug/sku pre-checks, then the
transaction inserting the product, media, attributes and variants. On
success returns the new state and the fresh product id. -/
def adminCreateProduct (db : DB) (p : AdminProductCreateBody) (now : Nat) :
    Except AdminAPIError (DB × Nat) :=
  match validateCreatePayload p with
  | .error e => .error e
  | .ok () =>
    if slugExists db p.slug none then
      .error ⟨"SLUG_DUPLICATE", "Slug already exists", 409⟩
    else
      let existing := skusInUse db (p.variants.map (·.sku)) []
      if !existing.isEmpty then
        .error ⟨"SKU_DUPLICATE", "SKU already exists: " ++ existing.headD "", 409⟩
      else
        match p.variants with
        | [] =>
          -- Python `min([])` raises ValueError inside the transaction,
          -- surfaced by the catch-all as a 500 (unreachable after validation).
          .error ⟨"INTERNAL_ERROR", "min() arg is an empty sequence", 500⟩
        | v0 :: vrest =>
          let pid := db.nextProductId
          let pr : ProductRow :=
            { id := pid, name := p.name, slug := p.slug,
              short_description := p.short_description,
              description := p.description, status := p.status,
              featured := p.featured, tags := some p.tags,
              has_variants := p.has_variants, deleted_at := none,
              price := pyMin ((v0 :: vrest).map (·.price)),
              sku := some v0.sku, is_active := p.status == "active",
              affiliate := none,
              stock := sumInt ((v0 :: vrest).map (·.stock)),
              brand := p.brand, pet_type := p.pet_type, season := p.season,
              height := some p.shipping.height, width := some p.shipping.width,
              length := some p.shipping.length, weight := some p.shipping.weight,
              category_id := some p.category_id, updated_at := now }
          let db1 := { db with
            products := db.products ++ [pr],
            nextProductId := pid + 1,
            images := db.images ++ p.media.map (fun m =>
              ⟨pid, m.url, m.type, m.sort_order, m.sort_order == 1⟩) }
          let acc := createAttrs db1 pid p.attributes [] []
          match createVariants acc.1 pid acc.2.1 acc.2.2 now p.variants with
          | .error e => .error e
          | .ok db2 => .ok (db2, pid)

/-! Update (`admin_update_product`, products.py lines 664-855), split into the
stages of the source's single transaction, in source order. -/

/-- The scalar-field loop of update (lines 678-706): each payload field that
is not `None` overwrites the product field; `tags` and the `shipping`
sub-object likewise; `is_active` is re-derived when `status` is present. -/
def applyScalarFields (pr : ProductRow) (p : AdminProductUpdateBody) : ProductRow :=
  { pr with
    name := p.name.getD pr.name,
    slug := p.slug.getD pr.slug,
    short_description :=
      match p.short_description with | some v => some v | none => pr.short_description,
    description := match p.description with | some v => some v | none => pr.description,
    status := p.status.getD pr.status,
    featured := p.featured.getD pr.featured,
    category_id := match p.category_id with | some v => some v | none => pr.category_id,
    brand := match p.brand with | some v => some v | none => pr.brand,
    pet_type := match p.pet_type with | some v => some v | none => pr.pet_type,
    season := match p.season with | some v => some v | none => pr.season,
    has_variants := p.has_variants.getD pr.has_variants,
    tags := match p.tags with | some t => some t | none => pr.tags,
    weight := match p.shipping with | some s => some s.weight | none => pr.weight,
    length := match p.shipping with | some s => some s.length | none => pr.length,
    width := match p.shipping with | some s => some s.width | none => pr.width,
    height := match p.shipping with | some s => some s.height | none => pr.height,
    is_active := match p.status with | some st => st == "active" | none => pr.is_active }

/-- The image-table effect of media sync (lines 709-720): when a media list
is present, delete the product's image rows and insert the new list
(`is_primary` iff `sort_order == 1`). -/
def imgSync (images : List ImageRow) (pid : Nat) (media : Option (List MediaItemDTO)) :
    List ImageRow :=
  match media with
  | none => images
  | some ms =>
    images.filter (fun im => im.product_id != pid) ++
      ms.map (fun m => ⟨pid, m.url, m.type, m.sort_order, m.sort_order == 1⟩)

/-- Media sync of update: replaces the product's image rows when present. -/
def syncMedia (db : DB) (pid : Nat) (media : Option (List MediaItemDTO)) : DB :=
  { db with images := imgSync db.images pid media }

/-- Explicit attribute deletion of update (lines 723-729):
`DELETE FROM product_attributes WHERE product_id = pid AND id IN ids`,
with store-level `ON DELETE CASCADE` removing the attributes' value rows and
any junction rows referencing the deleted attributes or values. -/
def deleteAttrs (db : DB) (pid : Nat) (ids : List Nat) : DB :=
  if ids.isEmpty then db
  else
    let dids := (db.attributes.filter (fun a =>
      a.product_id == pid && ids.contains a.id)).map (·.id)
    let dvids := (db.attributeValues.filter (fun v => dids.contains v.attribute_id)).map (·.id)
    { db with
      attributes := db.attributes.filter (fun a =>
        !(a.product_id == pid && ids.contains a.id)),
      attributeValues := db.attributeValues.filter (fun v => !dids.contains v.attribute_id),
      variantAttributeValues := db.variantAttributeValues.filter (fun j =>
        !dids.contains j.attribute_id && !dvids.contains j.attribute_value_id) }

/-- `_load_attribute_value_lookup` (products.py lines 458-471): builds
`attribute_by_name` and `value_id_by_pair` from the stored attributes of the
product and their value rows. -/
def loadLookup (db : DB) (pid : Nat) :
    List (String × Nat) × List ((String × String) × Nat) :=
  (db.attributes.filter (fun a => a.product_id == pid)).foldl
    (fun acc a =>
      ((a.name, a.id) :: acc.1,
       (db.attributeValues.filter (fun v => v.attribute_id == a.id)).foldl
         (fun vip v => ((a.name, v.value), v.id) :: vip) acc.2))
    ([], [])

/-- Replace the value set of one attribute (lines 754-760): delete its value
rows (cascading to junction rows that referenced them) and insert the new
values with fresh ids, extending `value_id_by_pair`. -/
def replaceAttrValues (db : DB) (aid : Nat) (name : String) (values : List String)
    (vip : List ((String × String) × Nat)) :
    DB × List ((String × String) × Nat) :=
  let dvids := (db.attributeValues.filter (fun v => v.attribute_id == aid)).map (·.id)
  let db1 := { db with
    attributeValues := db.attributeValues.filter (fun v => !(v.attribute_id == aid)),
    variantAttributeValues := db.variantAttributeValues.filter (fun j =>
      !dvids.contains j.attribute_value_id) }
  values.foldl (insertAttrValue aid name) (db1, vip)

/-- Attribute sync of update when `attributes` is present (lines 735-760):
a truthy id updates the matching attribute's name (else
`ATTRIBUTE_NOT_FOUND`), an absent id creates a fresh attribute; either way
the attribute's value set is replaced. -/
def syncAttrsList (db : DB) (pid : Nat)
    (abn : List (String × Nat)) (vip : List ((String × String) × Nat)) :
    List AttributeDTO →
    Except AdminAPIError (DB × List (String × Nat) × List ((String × String) × Nat))
  | [] => .ok (db, abn, vip)
  | a :: rest =>
    if truthyNat a.id then
      match db.attributes.find? (fun r => r.product_id == pid && some r.id == a.id) with
      | none =>
        .error ⟨"ATTRIBUTE_NOT_FOUND",
          "Attribute not found: " ++ (match a.id with | some n => toString n | none => "None"),
          400⟩
      | some row =>
        let db1 := { db with attributes := db.attributes.map (fun r =>
          if r.id == row.id then { r with name := a.name } else r) }
        let step := replaceAttrValues db1 row.id a.name a.values vip
        syncAttrsList step.1 pid ((a.name, row.id) :: abn) step.2 rest
    else
      let aid := db.nextAttributeId
      let db1 := { db with
        attributes := db.attributes ++ [⟨aid, pid, a.name⟩],
        nextAttributeId := aid + 1 }
      let step := replaceAttrValues db1 aid a.name a.values vip
      syncAttrsList step.1 pid ((a.name, aid) :: abn) step.2 rest

/-- Lines 731-762: sync the payload's attributes when present, else load the
lookup tables from the store. -/
def syncAttrsOrLoad (db : DB) (pid : Nat) (attrs : Option (List AttributeDTO)) :
    Except AdminAPIError (DB × List (String × Nat) × List ((String × String) × Nat)) :=
  match attrs with
  | some ats => syncAttrsList db pid [] [] ats
  | none =>
    let lk := loadLookup db pid
    .ok (db, lk.1, lk.2)

/-- Number of `order_items` rows whose `product_variant_id` is among `ids`
(the guard query of lines 767-769). -/
def orderRefsCount (db : DB) (ids : List Nat) : Nat :=
  (db.orderItems.filter (fun oi =>
    match oi.product_variant_id with
    | some v => ids.contains v
    | none => false)).length

/-- Explicit variant deletion of update (lines 765-781): refuse with a 409
when any listed id appears on an order item, else delete the product's
variants among `ids` (junction rows cascade). -/
def deleteVariantsStep (db : DB) (pid : Nat) (ids : List Nat) :
    Except AdminAPIError DB :=
  if ids.isEmpty then .ok db
  else if orderRefsCount db ids > 0 then
    .error ⟨"VARIANT_HAS_ORDERS", "Cannot delete variant that has order items", 409⟩
  else
    let dv := (db.variants.filter (fun v =>
      v.product_id == pid && ids.contains v.id)).map (·.id)
    .ok { db with
      variants := db.variants.filter (fun v =>
        !(v.product_id == pid && ids.contains v.id)),
      variantAttributeValues := db.variantAttributeValues.filter (fun j =>
        !dv.contains j.variant_id) }

/-- The in-request sku-duplicate / price loop of update (lines 786-792);
unlike create there is no empty-sku check here. -/
def checkDupAndPrice : List VariantDTO → List String → Except AdminAPIError Unit
  | [], _ => .ok ()
  | v :: rest, seen =>
    if seen.contains v.sku then
      .error ⟨"SKU_DUPLICATE", "SKU already exists in request", 400⟩
    else if v.price ≤ 0 then
      .error ⟨"PRICE_INVALID", "variant.price must be > 0", 400⟩
    else
      checkDupAndPrice rest (v.sku :: seen)

/-- Overwrite the mutable columns of a variant row from a variant spec
(lines 812-821); the row's `updated_at` is not touched by update. -/
def setVariantFields (r : VariantRow) (v : VariantDTO) : VariantRow :=
  { r with sku := v.sku, price := some v.price, compare_price := v.compare_price,
           cost_price := v.cost_price, stock := v.stock,
           manage_stock := v.manage_stock, allow_backorder := v.allow_backorder,
           status := v.status, is_active := v.status == "active",
           image_url := v.image_url }

/-- Junction replacement for one variant in update (lines 823-836): update
only checks the `(attribute, value)` pair (no separate unknown-attribute
check); the attribute id is read from `attribute_by_name`. -/
def updateJunctions (vid : Nat) (abn : List (String × Nat))
    (vip : List ((String × String) × Nat)) :
    List (String × String) → Except AdminAPIError (List VavRow)
  | [] => .ok []
  | (attr_name, chosen) :: rest =>
    match alistGet vip (attr_name, chosen) with
    | none => .error ⟨"ATTRIBUTE_VALUE_INVALID", "Invalid value for " ++ attr_name ++ ": " ++ chosen, 400⟩
    | some valId =>
      let aid := (alistGet abn attr_name).getD 0
      match updateJunctions vid abn vip rest with
      | .error e => .error e
      | .ok rows => .ok (⟨vid, aid, valId⟩ :: rows)

/-- The upsert-by-id variant loop of update (lines 800-836): a truthy id must
resolve to a variant of this product (else `VARIANT_NOT_FOUND`); a falsy id
takes the insert branch, which constructs `ProductVariant(product_id=...)`
and flushes it BEFORE any field is assigned -- `product_variants.sku` is
`NOT NULL` with no default, so the flush raises `IntegrityError` and the
endpoint's catch-all converts it to `INTERNAL_ERROR` / 500 (the driver's
message string is abstracted here). For a resolved variant the fields are
overwritten and its junction rows are replaced from `attribute_values`. -/
def upsertVariants (db : DB) (pid : Nat) (abn : List (String × Nat))
    (vip : List ((String × String) × Nat)) (now : Nat) :
    List VariantDTO → Except AdminAPIError DB
  | [] => .ok db
  | v :: rest =>
    let resolved : Except AdminAPIError (DB × Nat) :=
      if truthyNat v.id then
        match db.variants.find? (fun r => r.product_id == pid && some r.id == v.id) with
        | none =>
          .error ⟨"VARIANT_NOT_FOUND",
            "Variant not found: " ++ (match v.id with | some n => toString n | none => "None"),
            400⟩
        | some r =>
          .ok ({ db with variants := db.variants.map (fun q =>
                  if q.id == r.id then setVariantFields q v else q) }, r.id)
      else
        .error ⟨"INTERNAL_ERROR",
          "null value in column sku of relation product_variants violates not-null constraint",
          500⟩
    match resolved with
    | .error e => .error e
    | .ok (db1, vid) =>
      match updateJunctions vid abn vip v.attribute_values with
      | .error e => .error e
      | .ok juncs =>
        upsertVariants
          { db1 with variantAttributeValues :=
              db1.variantAttributeValues.filter (fun j => j.variant_id != vid) ++ juncs }
          pid abn vip now rest

/-- Variant sync of update when `variants` is present (lines 784-845),
including the trailing aggregate refresh: when the product still has variant
rows, `price` becomes the minimum of `price or 0`, `sku` the first row's sku
and `stock` the sum of stocks. -/
def syncVariantsOpt (db : DB) (pid : Nat) (pr : ProductRow)
    (vsOpt : Option (List VariantDTO)) (abn : List (String × Nat))
    (vip : List ((String × String) × Nat)) (now : Nat) :
    Except AdminAPIError (DB × ProductRow) :=
  match vsOpt with
  | none => .ok (db, pr)
  | some vs =>
    match checkDupAndPrice vs [] with
    | .error e => .error e
    | .ok () =>
      let exclude := (vs.filter (fun v => truthyNat v.id)).filterMap (·.id)
      let existing := skusInUse db (vs.map (·.sku)) exclude
      if !existing.isEmpty then
        .error ⟨"SKU_DUPLICATE", "SKU already exists: " ++ existing.headD "", 409⟩
      else
        match upsertVariants db pid abn vip now vs with
        | .error e => .error e
        | .ok db2 =>
          match db2.variants.filter (fun v => v.product_id == pid) with
          | [] => .ok (db2, pr)
          | v0 :: vrest =>
            .ok (db2,
              { pr with
                price := pyMin ((v0 :: vrest).map (fun rv => rv.price.getD 0)),
                sku := some v0.sku,
                stock := sumInt ((v0 :: vrest).map (·.stock)) })

/-- Write the (mutated) product record back into the store. -/
def writeProduct (db : DB) (pr : ProductRow) : DB :=
  { db with products := db.products.map (fun q => if q.id == pr.id then pr else q) }

/-- The transaction body of `admin_update_product` (lines 677-847). -/
def updTx (db : DB) (pid : Nat) (pr : ProductRow) (p : AdminProductUpdateBody)
    (now : Nat) : Except AdminAPIError DB :=
  let pr1 := applyScalarFields pr p
  let db1 := syncMedia db pid p.media
  let db2 := deleteAttrs db1 pid p.deleted_attribute_ids
  match syncAttrsOrLoad db2 pid p.attributes with
  | .error e => .error e
  | .ok (db3, abn, vip) =>
    match deleteVariantsStep db3 pid p.deleted_variant_ids with
    | .error e => .error e
    | .ok db4 =>
      match syncVariantsOpt db4 pid pr1 p.variants abn vip now with
      | .error e => .error e
      | .ok (db5, pr2) =>
        .ok (writeProduct db5 { pr2 with updated_at := now })

/-- `admin_update_product`: 404 lookup, slug pre-check, then the transaction.
The pre-check is guarded by truthiness -- `if payload.slug and await
_slug_exists(...)` (line 674) -- so an absent OR empty slug skips it
entirely. An `error` result models the transaction rollback: no state
survives. -/
def adminUpdateProduct (db : DB) (pid : Nat) (p : AdminProductUpdateBody)
    (now : Nat) : Except AdminAPIError DB :=
  match findLive db pid with
  | none => .error ⟨"NOT_FOUND", "Product not found", 404⟩
  | some pr =>
    match p.slug with
    | some s =>
      if !s.isEmpty && slugExists db s (some pid) then
        .error ⟨"SLUG_DUPLICATE", "Slug already exists", 409⟩
      else updTx db pid pr p now
    | none => updTx db pid pr p now

/-! `_refresh_product_aggregates` (products.py lines 56-68) and
`admin_patch_variant` (lines 364-396). -/

/-- `_refresh_product_aggregates`: when the product has variant rows, `price`
becomes the minimum of the non-null variant prices (when any), `stock` the
sum of stocks, `sku` the first row's sku; `updated_at` is always bumped. -/
def refreshProductAggregates (db : DB) (pid : Nat) (now : Nat) : DB :=
  match getById db pid with
  | none => db
  | some pr =>
    let pr1 : ProductRow :=
      match db.variants.filter (fun v => v.product_id == pid) with
      | [] => pr
      | v0 :: vrest =>
        let vars : List VariantRow := v0 :: vrest
        let prices : List ℚ := vars.filterMap (fun (v : VariantRow) => v.price)
        let prA : ProductRow := match prices with
          | [] => pr
          | q :: qs => { pr with price := pyMin (q :: qs) }
        { prA with
          stock := sumInt (vars.map (fun (v : VariantRow) => v.stock)),
          sku := some v0.sku }
    writeProduct db { pr1 with updated_at := now }

/-- `admin_patch_variant`: 404 lookup by variant id (any product), bound
checks, field overwrite, then aggregate refresh on the owning product. -/
def adminPatchVariant (db : DB) (variant_id : Nat) (p : AdminVariantPatchBody)
    (now : Nat) : Except AdminAPIError DB :=
  match db.variants.find? (fun v => v.id == variant_id) with
  | none => .error ⟨"VARIANT_NOT_FOUND", "Variant not found", 404⟩
  | some v =>
    if (match p.price with | some q => decide (q ≤ 0) | none => false) then
      .error ⟨"PRICE_INVALID", "price must be > 0", 400⟩
    else if (match p.cost_price with | some q => decide (q < 0) | none => false) then
      .error ⟨"COST_PRICE_INVALID", "cost_price must be >= 0", 400⟩
    else if (match p.stock with | some n => decide (n < 0) | none => false) then
      .error ⟨"STOCK_INVALID", "stock must be >= 0", 400⟩
    else
      let v1 := match p.price with | some q => { v with price := some q } | none => v
      let v2 := match p.cost_price with | some q => { v1 with cost_price := some q } | none => v1
      let v3 := match p.stock with | some n => { v2 with stock := n } | none => v2
      let v4 := match p.status with
        | some st => { v3 with status := st, is_active := st == "active" }
        | none => v3
      let v5 := { v4 with updated_at := now }
      let db1 := { db with variants := db.variants.map (fun q =>
        if q.id == v.id then v5 else q) }
      .ok (refreshProductAggregates db1 v.product_id now)

/-! Bulk mutation (`admin_bulk_products`, products.py lines 303-361). -/

/-- Python `int(x)` on a JSON-ish value: ints pass through, strings are
parsed (raising — here `none` — when unparsable), `None` raises. -/
def jToInt : JVal → Option Int
  | .int n => some n
  | .str s => s.toInt?
  | .null => none

/-- The try-block of one bulk iteration: `none` models a raised exception
(recorded by the caller as `INVALID_DATA`), `some` the mutated product row
with `updated_at` bumped. -/
def applyBulkAction (pr : ProductRow) (action : BulkAction)
    (data : List (String × JVal)) (now : Nat) : Option ProductRow :=
  match action with
  | .status =>
    match alistGet data "status" with
    | some (.str st) =>
      if st == "active" || st == "draft" || st == "inactive" || st == "discontinued" then
        some { pr with status := st, is_active := st == "active", updated_at := now }
      else none
    | _ => none
  | .category =>
    match alistGet data "category_id" with
    | none => none
    | some .null => none
    | some v =>
      match jToInt v with
      | some n => some { pr with category_id := some n, updated_at := now }
      | none => none
  | .affiliate =>
    match alistGet data "affiliate" with
    | none => some { pr with affiliate := none, updated_at := now }
    | some .null => some { pr with affiliate := none, updated_at := now }
    | some (.str "") => some { pr with affiliate := none, updated_at := now }
    | some v =>
      match jToInt v with
      | some n => some { pr with affiliate := some n, updated_at := now }
      | none => none
  | .delete =>
    some { pr with deleted_at := some now, is_active := false,
                   status := "inactive", updated_at := now }

/-- The per-id loop of `admin_bulk_products`, threading the store, the
`updated` counter and the `failed` list (each entry `(id, reason)`). -/
def bulkLoop (action : BulkAction) (data : List (String × JVal)) (now : Nat) :
    List Nat → DB → Nat → List (Nat × String) → DB × Nat × List (Nat × String)
  | [], db, updated, failed => (db, updated, failed)
  | i :: rest, db, updated, failed =>
    match getById db i with
    | none => bulkLoop action data now rest db updated (failed ++ [(i, "NOT_FOUND")])
    | some pr =>
      if pr.deleted_at ≠ none then
        bulkLoop action data now rest db updated (failed ++ [(i, "NOT_FOUND")])
      else
        match applyBulkAction pr action data now with
        | none => bulkLoop action data now rest db updated (failed ++ [(i, "INVALID_DATA")])
        | some pr' =>
          bulkLoop action data now rest (writeProduct db pr') (updated + 1) failed

/-- `admin_bulk_products`: bound checks, then one transaction whose per-id
try/except isolates failures; returns `(state, updated, failed)`. -/
def adminBulkProducts (db : DB) (p : AdminBulkProductsBody) (now : Nat) :
    Except AdminAPIError (DB × Nat × List (Nat × String)) :=
  if p.ids.isEmpty then
    .error ⟨"IDS_REQUIRED", "ids is required", 400⟩
  else if p.ids.length > 500 then
    .error ⟨"TOO_MANY_IDS", "Max 500 product IDs per request", 400⟩
  else
    .ok (bulkLoop p.action p.data now p.ids db 0 [])

/-! Spec-side comparison definition for the variant generator claim. -/

/-- Modelled from the spec claim for the variant generator: the claim says
only "attributes with an empty value list are skipped entirely", so this
version filters on the value list alone, then takes the cartesian product in
declaration order (first attribute varies slowest). -/
def generateVariantsClaimed (attrs : List AttributeDTO) : List (List (String × String)) :=
  let attrs' := attrs.filter (fun a => !a.values.isEmpty)
  if attrs'.isEmpty then []
  else
    let names := attrs'.map (·.name)
    (cartesianProd (attrs'.map (·.values))).map (fun combo => dictOfPairs (names.zip combo))

end Catalog

open Catalog

/-! ## Claim theorems -/

/-- The empty store. -/
def emptyDB : DB :=
  { products := [], variants := [], attributes := [], attributeValues := [],
    variantAttributeValues := [], images := [], orderItems := [],
    nextProductId := 1, nextVariantId := 1, nextAttributeId := 1,
    nextAttributeValueId := 1 }

/-- Create payload with a variant whose `stock` and `cost_price` are
negative but whose name/sku/price checks all pass. -/
def c9PayloadNegStock : AdminProductCreateBody :=
  { name := "P", slug := "p", short_description := none, description := none,
    status := "active", featured := false, category_id := 1, brand := none,
    pet_type := none, season := none, tags := [], has_variants := false,
    shipping := ⟨0, 0, 0, 0⟩, media := [], attributes := [],
    variants := [⟨none, "S1", 5, none, some (-3), -5, true, false, "active", [], none⟩] }

/-- Create payload whose single variant has a non-positive price. -/
def c9PayloadZeroPrice : AdminProductCreateBody :=
  { name := "P", slug := "p", short_description := none, description := none,
    status := "active", featured := false, category_id := 1, brand := none,
    pet_type := none, season := none, tags := [], has_variants := false,
    shipping := ⟨0, 0, 0, 0⟩, media := [], attributes := [],
    variants := [⟨none, "S1", 0, none, none, 0, true, false, "active", [], none⟩] }

/-- Concrete product row with neutral defaults, for witnesses and
counterexamples. -/
def mkProduct (id : Nat) (nm slug : String) (del : Option Nat) (price : ℚ)
    (stock : Int) (hv : Bool) (sku : Option String) : ProductRow :=
  { id := id, name := nm, slug := slug, short_description := none,
    description := none, status := "active", featured := false, tags := none,
    has_variants := hv, deleted_at := del, price := price, sku := sku,
    is_active := true, affiliate := none, stock := stock, brand := none,
    pet_type := none, season := none, height := none, width := none,
    length := none, weight := none, category_id := none, updated_at := 0 }

/-- Concrete variant row with neutral defaults. -/
def mkVariant (id pid : Nat) (sku : String) (price : ℚ) (stock : Int) : VariantRow :=
  { id := id, product_id := pid, sku := sku, price := some price,
    compare_price := none, cost_price := none, stock := stock,
    manage_stock := true, allow_backorder := false, status := "active",
    is_active := true, image_url := none, updated_at := 0 }

/-- Update payload with every field absent. -/
def emptyUpdate : AdminProductUpdateBody :=
  { name := none, slug := none, short_description := none, description := none,
    status := none, featured := none, category_id := none, brand := none,
    pet_type := none, season := none, tags := none, has_variants := none,
    shipping := none, media := none, attributes := none, variants := none,
    deleted_variant_ids := [], deleted_attribute_ids := [] }

/-- Valid create payload whose slug collides with a soft-deleted row. -/
def c10Payload : AdminProductCreateBody :=
  { name := "New", slug := "p", short_description := none, description := none,
    status := "active", featured := false, category_id := 1, brand := none,
    pet_type := none, season := none, tags := [], has_variants := false,
    shipping := ⟨0, 0, 0, 0⟩, media := [], attributes := [],
    variants := [⟨none, "SKU-NEW", 5, none, none, 1, true, false, "active", [], none⟩] }

/-- Store for the C10 counterexample: a live product 1 beside a soft-deleted
row whose slug is the empty string. -/
def c10uDb : DB :=
  { emptyDB with
    products := [mkProduct 1 "P" "live" none 5 0 false none,
                 mkProduct 2 "Old" "" (some 7) 5 0 false none],
    nextProductId := 3 }

/-- Update payload requesting the empty slug. -/
def c10uPayload : AdminProductUpdateBody :=
  { emptyUpdate with slug := some "" }

/-- Store with one two-variant product whose aggregates are in sync. -/
def c1Db : DB :=
  { emptyDB with
    products := [mkProduct 1 "P" "p1" none 5 7 true (some "A")],
    variants := [mkVariant 10 1 "A" 5 3, mkVariant 11 1 "B" 7 4],
    nextProductId := 2, nextVariantId := 12 }

/-- Update payload whose only variant change is deleting variant 10. -/
def c1Payload : AdminProductUpdateBody :=
  { emptyUpdate with deleted_variant_ids := [10] }

/-- Store with one single-variant product, for the C1 witness. -/
def c1wDb : DB :=
  { emptyDB with
    products := [mkProduct 1 "P" "pw" none 5 3 true (some "A")],
    variants := [mkVariant 10 1 "A" 5 3],
    nextProductId := 2, nextVariantId := 11 }

/-- Update payload rewriting variant 10 to price 6 / stock 2. -/
def c1wPayload : AdminProductUpdateBody :=
  { emptyUpdate with
    variants := some [⟨some 10, "A", 6, none, none, 2, true, false, "active", [], none⟩] }

/-- The store produced by applying `c1wPayload` to `c1wDb` at tick 3. -/
def c1wDbAfter : DB :=
  { emptyDB with
    products := [{ mkProduct 1 "P" "pw" none 6 2 true (some "A") with updated_at := 3 }],
    variants := [mkVariant 10 1 "A" 6 2],
    nextProductId := 2, nextVariantId := 11 }

/-- Payload whose first variant is dearer than its second. -/
def c8Payload : AdminProductCreateBody :=
  { name := "P8", slug := "p8", short_description := none, description := none,
    status := "active", featured := false, category_id := 1, brand := none,
    pet_type := none, season := none, tags := [], has_variants := true,
    shipping := ⟨0, 0, 0, 0⟩, media := [], attributes := [],
    variants := [⟨none, "HI", 10, none, none, 1, true, false, "active", [], none⟩,
                 ⟨none, "LO", 5, none, none, 1, true, false, "active", [], none⟩] }

/-- The store produced by creating `c8Payload` in the empty store at tick 0. -/
def c8DbAfter : DB :=
  { products := [{ id := 1, name := "P8", slug := "p8", short_description := none,
                   description := none, status := "active", featured := false,
                   tags := some [], has_variants := true, deleted_at := none,
                   price := 5, sku := some "HI", is_active := true,
                   affiliate := none, stock := 2, brand := none,
                   pet_type := none, season := none, height := some 0,
                   width := some 0, length := some 0, weight := some 0,
                   category_id := some 1, updated_at := 0 }],
    variants := [⟨1, 1, "HI", some 10, none, none, 1, true, false, "active", true, none, 0⟩,
                 ⟨2, 1, "LO", some 5, none, none, 1, true, false, "active", true, none, 0⟩],
    attributes := [], attributeValues := [], variantAttributeValues := [],
    images := [], orderItems := [],
    nextProductId := 2, nextVariantId := 3, nextAttributeId := 1,
    nextAttributeValueId := 1 }

/-- Store with a product whose attribute Size=S is persisted. -/
def c2Db : DB :=
  { emptyDB with
    products := [mkProduct 1 "P" "p2" none 5 1 true (some "A")],
    variants := [mkVariant 10 1 "A" 5 1],
    attributes := [⟨20, 1, "Size"⟩],
    attributeValues := [⟨30, 20, "S"⟩],
    nextProductId := 2, nextVariantId := 11,
    nextAttributeId := 21, nextAttributeValueId := 31 }

/-- Update payload with an (empty) attributes list present, whose variant
references the stored pair Size=S. -/
def c2Payload : AdminProductUpdateBody :=
  { emptyUpdate with
    attributes := some [],
    variants := some [⟨some 10, "A", 5, none, none, 1, true, false, "active",
                       [("Size", "S")], none⟩] }

/-- Store for the C2 witness. -/
def c2wDb : DB :=
  { emptyDB with
    products := [mkProduct 1 "P" "pc2w" none 5 1 true (some "A")],
    variants := [mkVariant 10 1 "A" 5 1],
    nextProductId := 2, nextVariantId := 11 }

/-- Payload creating attribute Color=Red and referencing it from a variant. -/
def c2wPayload : AdminProductUpdateBody :=
  { emptyUpdate with
    attributes := some [⟨none, "Color", ["Red"]⟩],
    variants := some [⟨some 10, "A", 5, none, none, 1, true, false, "active",
                       [("Color", "Red")], none⟩] }

/-- Whether one bulk iteration succeeds for an id: the id resolves to a
live (non-soft-deleted) row and the action data validates against it. -/
def bulkGood (db : DB) (action : BulkAction) (data : List (String × JVal))
    (now : Nat) (i : Nat) : Bool :=
  match getById db i with
  | none => false
  | some pr =>
    if pr.deleted_at ≠ none then false
    else (applyBulkAction pr action data now).isSome

/-- The failure reason recorded for an id that does not succeed. -/
def bulkReason (db : DB) (i : Nat) : String :=
  match getById db i with
  | none => "NOT_FOUND"
  | some pr => if pr.deleted_at ≠ none then "NOT_FOUND" else "INVALID_DATA"

/-- Store with live products 1 and 2 (and no product 999). -/
def c4Db : DB :=
  { emptyDB with
    products := [mkProduct 1 "A" "a" none 5 1 true none,
                 mkProduct 2 "B" "b" none 5 1 true none],
    nextProductId := 3 }

/-- Bulk request: set status of ids 1, 2 and 999 to active. -/
def c4Payload : AdminBulkProductsBody :=
  { ids := [1, 2, 999], action := .status, data := [("status", .str "active")] }

/-- C7: the rollup stock-status classification returns exactly `out` when
`stock_total ≤ 0`, `low` when `0 < stock_total < 10`, and `in_stock`
otherwise (fixed threshold 10); in particular 0 ↦ out, 5 ↦ low,
10 ↦ in_stock. -/
theorem C7_stock_status_classification :
    (∀ n : Int,
      (stockStatus n = "out" ↔ n ≤ 0) ∧
      (stockStatus n = "low" ↔ 0 < n ∧ n < 10) ∧
      (stockStatus n = "in_stock" ↔ 10 ≤ n)) ∧
    stockStatus 0 = "out" ∧ stockStatus 5 = "low" ∧ stockStatus 10 = "in_stock" := by
  refine ⟨fun n => ?_, by decide, by decide, by decide⟩
  unfold stockStatus
  split_ifs with h1 h2
  · refine ⟨by simp [h1], ?_, ?_⟩
    · constructor
      · intro h; exact absurd h (by decide)
      · intro h; omega
    · constructor
      · intro h; exact absurd h (by decide)
      · intro h; omega
  · refine ⟨?_, by simp; omega, ?_⟩
    · constructor
      · intro h; exact absurd h (by decide)
      · intro h; omega
    · constructor
      · intro h; exact absurd h (by decide)
      · intro h; omega
  · refine ⟨?_, ?_, by simp; omega⟩
    · constructor
      · intro h; exact absurd h (by decide)
      · intro h; omega
    · constructor
      · intro h; exact absurd h (by decide)
      · intro h; omega

/-- C7 witness: the classification evaluated at a concrete total. -/
theorem C7_stock_status_classification_witness :
    stockStatus 0 = "out" :=
  C7_stock_status_classification.2.1

/-- C5 counterexample: the claim says the generator returns the cartesian
product of the non-empty value lists for *every* list of (name, values)
pairs, skipping only attributes with an empty value list; but the code also
skips attributes whose *name* is empty: on `[("", ["x", "y"])]` it returns
`[]` where the claim-predicted result has two combinations. -/
theorem C5_generator_counterexample :
    generateVariants [⟨none, "", ["x", "y"]⟩] = [] ∧
    generateVariantsClaimed [⟨none, "", ["x", "y"]⟩] = [[("", "x")], [("", "y")]] ∧
    ([] : List (List (String × String))) ≠ [[("", "x")], [("", "y")]] := by
  refine ⟨rfl, rfl, by decide⟩

/-- C5 (amended): for attribute lists whose names are all non-empty, the
generator returns exactly the ordered cartesian product of the non-empty
value lists (first attribute varies slowest), attributes with an empty value
list are skipped, and an all-empty input yields the empty sequence; the code
additionally skips attributes with an empty name, which the amended claim
records. -/
theorem C5_generator_amended :
    (∀ attrs : List AttributeDTO, (∀ a ∈ attrs, a.name ≠ "") →
      generateVariants attrs = generateVariantsClaimed attrs) ∧
    generateVariants
      [⟨none, "Size", ["S", "M"]⟩, ⟨none, "Color", ["Red", "Blue"]⟩] =
      [[("Size", "S"), ("Color", "Red")], [("Size", "S"), ("Color", "Blue")],
       [("Size", "M"), ("Color", "Red")], [("Size", "M"), ("Color", "Blue")]] ∧
    generateVariants [⟨none, "Size", []⟩] = [] := by
  refine ⟨fun attrs h => ?_, by decide, rfl⟩
  unfold generateVariants generateVariantsClaimed
  have hf : attrs.filter (fun a => a.name != "" && !a.values.isEmpty) =
      attrs.filter (fun a => !a.values.isEmpty) := by
    apply List.filter_congr
    intro a ha
    have hne := h a ha
    simp [hne]
  rw [hf]

/-- C5 witness: the amended equality applied at a concrete attribute list. -/
theorem C5_generator_amended_witness :
    generateVariants [⟨none, "A", ["x"]⟩] = generateVariantsClaimed [⟨none, "A", ["x"]⟩] :=
  C5_generator_amended.1 [⟨none, "A", ["x"]⟩] (by decide)

/-- The per-variant create-validation loop accepts exactly the lists whose
variants all carry a non-empty sku and a positive price, with no sku repeated
and none already seen. -/
theorem validateCreateVariants_ok_iff (vs : List VariantDTO) (seen : List String) :
    validateCreateVariants vs seen = .ok () ↔
      ((∀ v ∈ vs, v.sku ≠ "" ∧ 0 < v.price) ∧
       (vs.map (fun v => v.sku)).Nodup ∧
       (∀ v ∈ vs, v.sku ∉ seen)) := by
  induction vs generalizing seen with
  | nil => simp [validateCreateVariants]
  | cons v rest ih =>
    simp only [validateCreateVariants]
    split_ifs with h1 h2 h3
    · constructor
      · intro h; exact absurd h (by simp)
      · rintro ⟨hvp, -, -⟩; exact absurd h1 (hvp v (by simp)).1
    · have hv : v.sku ∈ seen := by simpa using h2
      constructor
      · intro h; exact absurd h (by simp)
      · rintro ⟨-, -, hns⟩; exact absurd hv (hns v (by simp))
    · constructor
      · intro h; exact absurd h (by simp)
      · rintro ⟨hvp, -, -⟩; exact absurd (hvp v (by simp)).2 (not_lt.mpr h3)
    · have h2' : v.sku ∉ seen := fun hc => h2 (by simpa using hc)
      have h3' : 0 < v.price := not_le.mp h3
      rw [ih]
      constructor
      · rintro ⟨hA, hB, hC⟩
        refine ⟨?_, ?_, ?_⟩
        · intro w hw
          rcases List.mem_cons.mp hw with rfl | hw'
          · exact ⟨h1, h3'⟩
          · exact hA w hw'
        · simp only [List.map_cons, List.nodup_cons]
          refine ⟨?_, hB⟩
          intro hmem
          rcases List.mem_map.mp hmem with ⟨w, hw, hsk⟩
          exact (hC w hw) (by simp [hsk])
        · intro w hw
          rcases List.mem_cons.mp hw with rfl | hw'
          · exact h2'
          · exact fun hc => (hC w hw') (List.mem_cons_of_mem _ hc)
      · rintro ⟨hA, hB, hC⟩
        have hB' : (∀ x ∈ rest, ¬x.sku = v.sku) ∧
            (rest.map (fun v => v.sku)).Nodup := by simpa using hB
        refine ⟨fun w hw => hA w (by simp [hw]), hB'.2, ?_⟩
        intro w hw
        simp only [List.mem_cons]
        rintro (hsk | hmem)
        · exact hB'.1 w hw hsk
        · exact (hC w (by simp [hw])) hmem

/-- When the sku checks pass but some variant's price is non-positive, the
create-validation loop fails with exactly `PRICE_INVALID`. -/
theorem validateCreateVariants_price_error (vs : List VariantDTO) (seen : List String)
    (hsku : ∀ v ∈ vs, v.sku ≠ "")
    (hnd : (vs.map (fun v => v.sku)).Nodup)
    (hns : ∀ v ∈ vs, v.sku ∉ seen)
    (hbad : ∃ v ∈ vs, v.price ≤ 0) :
    validateCreateVariants vs seen =
      .error ⟨"PRICE_INVALID", "variant.price must be > 0", 400⟩ := by
  induction vs generalizing seen with
  | nil => simp at hbad
  | cons v rest ih =>
    have h1 : v.sku ≠ "" := hsku v (by simp)
    have h2 : v.sku ∉ seen := hns v (by simp)
    simp only [validateCreateVariants]
    rw [if_neg h1, if_neg (by simpa using h2)]
    by_cases h3 : v.price ≤ 0
    · rw [if_pos h3]
    · rw [if_neg h3]
      have hB' : (∀ x ∈ rest, ¬x.sku = v.sku) ∧
          (rest.map (fun v => v.sku)).Nodup := by simpa using hnd
      rcases hbad with ⟨w, hw, hwp⟩
      rcases List.mem_cons.mp hw with rfl | hw'
      · exact absurd hwp h3
      · refine ih (v.sku :: seen) (fun x hx => hsku x (by simp [hx])) hB'.2 ?_ ⟨w, hw', hwp⟩
        intro x hx
        simp only [List.mem_cons]
        rintro (hsk | hmem)
        · exact hB'.1 x hx hsk
        · exact (hns x (by simp [hx])) hmem

/-- `_validate_create_payload` accepts exactly the payloads with a non-empty
name, the right variant count for `has_variants`, and variants that all have
a non-empty sku and positive price with no repeated sku. -/
theorem validateCreatePayload_ok_iff (p : AdminProductCreateBody) :
    validateCreatePayload p = .ok () ↔
      (p.name ≠ "" ∧
       (if p.has_variants then p.variants ≠ [] else p.variants.length = 1) ∧
       (∀ v ∈ p.variants, v.sku ≠ "" ∧ 0 < v.price) ∧
       (p.variants.map (fun v => v.sku)).Nodup) := by
  unfold validateCreatePayload
  by_cases h1 : p.name = ""
  · rw [if_pos h1]
    constructor
    · intro h; exact absurd h (by simp)
    · rintro ⟨hn, -⟩; exact absurd h1 hn
  · rw [if_neg h1]
    rcases hhv : p.has_variants with - | -
    · rw [if_pos rfl]
      by_cases hlen : p.variants.length ≠ 1
      · rw [if_pos hlen]
        constructor
        · intro h; exact absurd h (by simp)
        · rintro ⟨-, hc, -⟩
          simp only [if_neg (by simp : ¬(false = true))] at hc
          exact absurd hc hlen
      · rw [if_neg hlen]
        rw [validateCreateVariants_ok_iff]
        simp [h1, not_not.mp hlen]
    · rw [if_neg (by simp)]
      by_cases hemp : p.variants.isEmpty
      · rw [if_pos hemp]
        constructor
        · intro h; exact absurd h (by simp)
        · rintro ⟨-, hc, -⟩
          simp [List.isEmpty_iff.mp hemp] at hc
      · rw [if_neg hemp]
        rw [validateCreateVariants_ok_iff]
        have hne : p.variants ≠ [] := by simpa using hemp
        simp [h1, hne]

/-- C9 counterexample: create validation does *not* reject a variant spec
with negative `stock` and negative `cost_price` — the payload passes
`_validate_create_payload` and the whole create succeeds, contradicting the
claim that such specs are rejected before any write. -/
theorem C9_create_validation_counterexample :
    validateCreatePayload c9PayloadNegStock = .ok () ∧
    (∃ v ∈ c9PayloadNegStock.variants, v.stock < 0 ∧ v.cost_price = some (-3) ∧ (-3 : ℚ) < 0) ∧
    (adminCreateProduct emptyDB c9PayloadNegStock 0).isOk = true := by
  refine ⟨rfl,
    ⟨⟨none, "S1", 5, none, some (-3), -5, true, false, "active", [], none⟩,
      by simp [c9PayloadNegStock], by decide, rfl, by decide⟩, rfl⟩

/-- C9 (amended): `_validate_create_payload` checks exactly name, the
variant-count rule, sku presence/in-request uniqueness, and price > 0; a
non-positive price is rejected with the distinct error `PRICE_INVALID`
(before any write), but negative `cost_price`/`stock` are not validated on
create and pass through. -/
theorem C9_create_validation_amended :
    (∀ p : AdminProductCreateBody,
      (validateCreatePayload p = .ok () ↔
        p.name ≠ "" ∧
        (if p.has_variants then p.variants ≠ [] else p.variants.length = 1) ∧
        (∀ v ∈ p.variants, v.sku ≠ "" ∧ 0 < v.price) ∧
        (p.variants.map (fun v => v.sku)).Nodup)) ∧
    (∀ p : AdminProductCreateBody,
      p.name ≠ "" →
      (if p.has_variants then p.variants ≠ [] else p.variants.length = 1) →
      (∀ v ∈ p.variants, v.sku ≠ "") →
      (p.variants.map (fun v => v.sku)).Nodup →
      (∃ v ∈ p.variants, v.price ≤ 0) →
      validateCreatePayload p =
        .error ⟨"PRICE_INVALID", "variant.price must be > 0", 400⟩) := by
  refine ⟨validateCreatePayload_ok_iff, ?_⟩
  intro p hn hc hsku hnd hbad
  unfold validateCreatePayload
  rw [if_neg hn]
  rcases hhv : p.has_variants with - | -
  · rw [if_pos rfl]
    simp only [hhv, if_neg (by simp : ¬(false = true))] at hc
    rw [if_neg (by simp [hc])]
    exact validateCreateVariants_price_error _ _ hsku hnd (by simp) hbad
  · rw [if_neg (by simp)]
    simp only [hhv, if_pos rfl] at hc
    rw [if_neg (by simpa [List.isEmpty_iff] using hc)]
    exact validateCreateVariants_price_error _ _ hsku hnd (by simp) hbad

/-- C9 witness: the amended price check applied at a concrete payload. -/
theorem C9_create_validation_amended_witness :
    validateCreatePayload c9PayloadZeroPrice =
      .error ⟨"PRICE_INVALID", "variant.price must be > 0", 400⟩ :=
  C9_create_validation_amended.2 c9PayloadZeroPrice (by decide) (by decide)
    (by decide) (by decide) ⟨⟨none, "S1", 0, none, none, 0, true, false, "active", [], none⟩, by decide, by decide⟩

/-- C10 counterexample: the update half of the claim fails at the empty
slug. The update pre-check is guarded by truthiness -- `if payload.slug and
await _slug_exists(...)` -- so an update requesting slug "" skips the check
although another (here soft-deleted) row with slug "" exists, and the
promised SLUG_DUPLICATE/409 rejection never happens (the collision would
surface only at commit time through the database's unique slug index, as an
INTERNAL_ERROR/500, which the store model does not model; the claim's
specific rejection is provably absent). -/
theorem C10_slug_check_counterexample :
    (∃ pr ∈ c10uDb.products, pr.slug = "" ∧ pr.id ≠ 1) ∧
    c10uPayload.slug = some "" ∧
    findLive c10uDb 1 ≠ none ∧
    adminUpdateProduct c10uDb 1 c10uPayload 5 ≠
      .error ⟨"SLUG_DUPLICATE", "Slug already exists", 409⟩ := by
  refine ⟨⟨mkProduct 2 "Old" "" (some 7) 5 0 false none, by decide, rfl, by decide⟩,
    rfl, by decide, ?_⟩
  have hok : ∃ dbx, adminUpdateProduct c10uDb 1 c10uPayload 5 = .ok dbx := ⟨_, rfl⟩
  rcases hok with ⟨dbx, hok⟩
  intro h
  rw [hok] at h
  cases h

/-- C10 (amended): the slug-uniqueness check of admin create and update
counts every `products` row, soft-deleted ones included: whenever any row
(live or deleted) carries the requested slug (another row, for update), the
operation is rejected with `SLUG_DUPLICATE` / 409 -- unconditionally on
create, and on update whenever the requested slug is non-empty (an empty
slug is falsy in Python, so `if payload.slug and ...` skips the pre-check
entirely). -/
theorem C10_slug_check_amended :
    (∀ (db : DB) (p : AdminProductCreateBody) (now : Nat),
      validateCreatePayload p = .ok () →
      (∃ pr ∈ db.products, pr.slug = p.slug) →
      adminCreateProduct db p now =
        .error ⟨"SLUG_DUPLICATE", "Slug already exists", 409⟩) ∧
    (∀ (db : DB) (pid : Nat) (p : AdminProductUpdateBody) (now : Nat) (s : String),
      findLive db pid ≠ none →
      p.slug = some s →
      s.isEmpty = false →
      (∃ pr ∈ db.products, pr.slug = s ∧ pr.id ≠ pid) →
      adminUpdateProduct db pid p now =
        .error ⟨"SLUG_DUPLICATE", "Slug already exists", 409⟩) := by
  constructor
  · intro db p now hval hdup
    have hex : slugExists db p.slug none = true := by
      rcases hdup with ⟨pr, hmem, hslug⟩
      simp only [slugExists, List.any_eq_true]
      exact ⟨pr, hmem, by simp [hslug]⟩
    unfold adminCreateProduct
    rw [hval]
    simp [hex]
  · intro db pid p now s hlive hslug hne hdup
    have hex : slugExists db s (some pid) = true := by
      rcases hdup with ⟨pr, hmem, hs, hid⟩
      simp only [slugExists, List.any_eq_true]
      exact ⟨pr, hmem, by simp [hs, hid]⟩
    unfold adminUpdateProduct
    rcases hfind : findLive db pid with - | pr
    · exact absurd hfind hlive
    · rw [hslug]
      simp [hex, hne]

/-- C10 witness: a soft-deleted row blocks a create with the same slug. -/
theorem C10_slug_check_amended_witness :
    adminCreateProduct
      { emptyDB with products := [mkProduct 1 "Old" "p" (some 7) 5 0 false none],
                     nextProductId := 2 }
      c10Payload 1 =
      .error ⟨"SLUG_DUPLICATE", "Slug already exists", 409⟩ :=
  C10_slug_check_amended.1 _ _ 1 (by rfl)
    ⟨mkProduct 1 "Old" "p" (some 7) 5 0 false none, by decide, by decide⟩

/-- Media sync never touches the order-items table. -/
theorem syncMedia_orderItems (db : DB) (pid : Nat) (m : Option (List MediaItemDTO)) :
    (syncMedia db pid m).orderItems = db.orderItems := by
  cases m <;> rfl

/-- Attribute deletion never touches the order-items table. -/
theorem deleteAttrs_orderItems (db : DB) (pid : Nat) (ids : List Nat) :
    (deleteAttrs db pid ids).orderItems = db.orderItems := by
  unfold deleteAttrs
  split <;> rfl

/-- `orderRefsCount` only reads the order-items table. -/
theorem orderRefsCount_congr (db1 db2 : DB) (ids : List Nat)
    (h : db1.orderItems = db2.orderItems) :
    orderRefsCount db1 ids = orderRefsCount db2 ids := by
  unfold orderRefsCount
  rw [h]

/-- A listed variant id referenced by an order item makes `orderRefsCount`
positive. -/
theorem orderRefsCount_pos (db : DB) (ids : List Nat)
    (h : ∃ vid ∈ ids, ∃ oi ∈ db.orderItems, oi.product_variant_id = some vid) :
    0 < orderRefsCount db ids := by
  rcases h with ⟨vid, hvid, oi, hoi, heq⟩
  unfold orderRefsCount
  have hmem : oi ∈ db.orderItems.filter (fun oi =>
      match oi.product_variant_id with
      | some v => ids.contains v
      | none => false) := by
    refine List.mem_filter.mpr ⟨hoi, ?_⟩
    rw [heq]
    simpa using hvid
  exact List.length_pos_of_mem hmem

/-! Stage lemmas: which tables each update stage leaves untouched. -/

/-- Media sync leaves the products table untouched. -/
theorem syncMedia_products (db : DB) (pid : Nat) (m : Option (List MediaItemDTO)) :
    (syncMedia db pid m).products = db.products := by
  cases m <;> rfl

/-- Media sync leaves the variants table untouched. -/
theorem syncMedia_variants (db : DB) (pid : Nat) (m : Option (List MediaItemDTO)) :
    (syncMedia db pid m).variants = db.variants := by
  cases m <;> rfl

/-- Attribute deletion leaves the products table untouched. -/
theorem deleteAttrs_products (db : DB) (pid : Nat) (ids : List Nat) :
    (deleteAttrs db pid ids).products = db.products := by
  unfold deleteAttrs
  split <;> rfl

/-- Attribute deletion leaves the variants table untouched. -/
theorem deleteAttrs_variants (db : DB) (pid : Nat) (ids : List Nat) :
    (deleteAttrs db pid ids).variants = db.variants := by
  unfold deleteAttrs
  split <;> rfl

/-- The attribute-value insertion fold leaves the products table untouched. -/
theorem insertAttrValue_foldl_products (aid : Nat) (name : String)
    (values : List String) (acc : DB × List ((String × String) × Nat)) :
    ((values.foldl (insertAttrValue aid name) acc).1).products = acc.1.products := by
  induction values generalizing acc with
  | nil => rfl
  | cons v rest ih => exact (ih (insertAttrValue aid name acc v)).trans rfl

/-- The attribute-value insertion fold leaves the variants table untouched. -/
theorem insertAttrValue_foldl_variants (aid : Nat) (name : String)
    (values : List String) (acc : DB × List ((String × String) × Nat)) :
    ((values.foldl (insertAttrValue aid name) acc).1).variants = acc.1.variants := by
  induction values generalizing acc with
  | nil => rfl
  | cons v rest ih => exact (ih (insertAttrValue aid name acc v)).trans rfl

/-- Value replacement leaves the products table untouched. -/
theorem replaceAttrValues_products (db : DB) (aid : Nat) (name : String)
    (values : List String) (vip : List ((String × String) × Nat)) :
    ((replaceAttrValues db aid name values vip).1).products = db.products := by
  unfold replaceAttrValues
  exact (insertAttrValue_foldl_products _ _ _ _).trans rfl

/-- Value replacement leaves the variants table untouched. -/
theorem replaceAttrValues_variants (db : DB) (aid : Nat) (name : String)
    (values : List String) (vip : List ((String × String) × Nat)) :
    ((replaceAttrValues db aid name values vip).1).variants = db.variants := by
  unfold replaceAttrValues
  exact (insertAttrValue_foldl_variants _ _ _ _).trans rfl

/-- A successful attribute sync leaves the products table untouched. -/
theorem syncAttrsList_products (ats : List AttributeDTO) :
    ∀ (db : DB) (pid : Nat) abn vip db' abn' vip',
      syncAttrsList db pid abn vip ats = .ok (db', abn', vip') →
      db'.products = db.products := by
  induction ats with
  | nil =>
    intro db pid abn vip db' abn' vip' h
    simp only [syncAttrsList] at h
    cases h
    rfl
  | cons a rest ih =>
    intro db pid abn vip db' abn' vip' h
    simp only [syncAttrsList] at h
    by_cases ht : truthyNat a.id
    · rw [if_pos ht] at h
      rcases hf : db.attributes.find? (fun r => r.product_id == pid && some r.id == a.id) with - | row
      · rw [hf] at h; cases h
      · rw [hf] at h
        have := ih _ _ _ _ _ _ _ h
        rw [this, replaceAttrValues_products]
    · rw [if_neg ht] at h
      have := ih _ _ _ _ _ _ _ h
      rw [this, replaceAttrValues_products]

/-- A successful attribute sync leaves the variants table untouched. -/
theorem syncAttrsList_variants (ats : List AttributeDTO) :
    ∀ (db : DB) (pid : Nat) abn vip db' abn' vip',
      syncAttrsList db pid abn vip ats = .ok (db', abn', vip') →
      db'.variants = db.variants := by
  induction ats with
  | nil =>
    intro db pid abn vip db' abn' vip' h
    simp only [syncAttrsList] at h
    cases h
    rfl
  | cons a rest ih =>
    intro db pid abn vip db' abn' vip' h
    simp only [syncAttrsList] at h
    by_cases ht : truthyNat a.id
    · rw [if_pos ht] at h
      rcases hf : db.attributes.find? (fun r => r.product_id == pid && some r.id == a.id) with - | row
      · rw [hf] at h; cases h
      · rw [hf] at h
        have := ih _ _ _ _ _ _ _ h
        rw [this, replaceAttrValues_variants]
    · rw [if_neg ht] at h
      have := ih _ _ _ _ _ _ _ h
      rw [this, replaceAttrValues_variants]

/-- A successful `syncAttrsOrLoad` leaves the products table untouched. -/
theorem syncAttrsOrLoad_products (db : DB) (pid : Nat)
    (attrs : Option (List AttributeDTO)) (db' : DB) (abn' : List (String × Nat))
    (vip' : List ((String × String) × Nat))
    (h : syncAttrsOrLoad db pid attrs = .ok (db', abn', vip')) :
    db'.products = db.products := by
  cases attrs with
  | none => simp only [syncAttrsOrLoad] at h; cases h; rfl
  | some ats => exact syncAttrsList_products ats _ _ _ _ _ _ _ h

/-- A successful `syncAttrsOrLoad` leaves the variants table untouched. -/
theorem syncAttrsOrLoad_variants (db : DB) (pid : Nat)
    (attrs : Option (List AttributeDTO)) (db' : DB) (abn' : List (String × Nat))
    (vip' : List ((String × String) × Nat))
    (h : syncAttrsOrLoad db pid attrs = .ok (db', abn', vip')) :
    db'.variants = db.variants := by
  cases attrs with
  | none => simp only [syncAttrsOrLoad] at h; cases h; rfl
  | some ats => exact syncAttrsList_variants ats _ _ _ _ _ _ _ h

/-- A successful variant-deletion step leaves the products table untouched. -/
theorem deleteVariantsStep_products (db : DB) (pid : Nat) (ids : List Nat)
    (db' : DB) (h : deleteVariantsStep db pid ids = .ok db') :
    db'.products = db.products := by
  unfold deleteVariantsStep at h
  split_ifs at h
  · cases h; rfl
  · cases h; rfl

/-- A successful variant upsert loop leaves the products table untouched. -/
theorem upsertVariants_products (vs : List VariantDTO) :
    ∀ (db : DB) (pid : Nat) abn vip now db',
      upsertVariants db pid abn vip now vs = .ok db' →
      db'.products = db.products := by
  induction vs with
  | nil =>
    intro db pid abn vip now db' h
    simp only [upsertVariants] at h
    cases h
    rfl
  | cons v rest ih =>
    intro db pid abn vip now db' h
    simp only [upsertVariants] at h
    by_cases ht : truthyNat v.id
    · rw [if_pos ht] at h
      rcases hf : db.variants.find? (fun r => r.product_id == pid && some r.id == v.id) with - | r
      · rw [hf] at h; cases h
      · rw [hf] at h
        dsimp only at h
        rcases hj : updateJunctions r.id abn vip v.attribute_values with e | juncs
        · rw [hj] at h; cases h
        · rw [hj] at h
          exact (ih _ _ _ _ _ _ h).trans rfl
    · rw [if_neg ht] at h
      dsimp only at h
      cases h

/-- Writing a product back never touches the variants table. -/
theorem writeProduct_variants (db : DB) (pr : ProductRow) :
    (writeProduct db pr).variants = db.variants := rfl

/-- A successful `findLive` returns the stored row: it is found by id, its id
matches, and it is not soft-deleted. -/
theorem findLive_eq (db : DB) (pid : Nat) (pr : ProductRow)
    (h : findLive db pid = some pr) :
    getById db pid = some pr ∧ pr.id = pid ∧ pr.deleted_at = none := by
  unfold findLive at h
  rcases hg : getById db pid with - | q
  · rw [hg] at h; cases h
  · rw [hg] at h
    dsimp only at h
    by_cases hd : q.deleted_at = none
    · rw [if_pos hd] at h
      injection h with h'
      subst h'
      refine ⟨rfl, ?_, hd⟩
      have := List.find?_some hg
      simpa using this
    · rw [if_neg hd] at h; cases h

/-- Replacing the row with the target id in a list makes `find?` return the
replacement, provided some row with that id was present. -/
theorem find?_map_replace (l : List ProductRow) (prF : ProductRow) (pid : Nat)
    (hid : prF.id = pid) (h : (l.find? (fun q => q.id == pid)).isSome) :
    (l.map (fun q => if q.id == prF.id then prF else q)).find?
      (fun q => q.id == pid) = some prF := by
  induction l with
  | nil => simp [List.find?] at h
  | cons q rest ih =>
    simp only [List.map_cons]
    by_cases hq : q.id = pid
    · have hpos : (q.id == prF.id) = true := by
        simp only [beq_iff_eq, hid]; exact hq
      rw [if_pos hpos]
      exact List.find?_cons_of_pos _ (by simp [hid])
    · have hne : ¬((q.id == prF.id) = true) := by
        simp only [beq_iff_eq, hid]; exact hq
      rw [if_neg hne]
      rw [List.find?_cons_of_neg _ (by simpa using hq)]
      apply ih
      rw [List.find?_cons_of_neg _ (by simpa using hq)] at h
      exact h

/-- After `writeProduct`, looking the product up by its id returns the
written row (when a row with that id existed). -/
theorem getById_writeProduct (db : DB) (prF : ProductRow) (pid : Nat)
    (hid : prF.id = pid) (h : (getById db pid).isSome) :
    getById (writeProduct db prF) pid = some prF := by
  unfold getById writeProduct at *
  exact find?_map_replace db.products prF pid hid h

/-- Inversion of a successful `adminUpdateProduct`: the product resolved and
the transaction body succeeded. -/
theorem adminUpdateProduct_ok_inv (db : DB) (pid : Nat)
    (p : AdminProductUpdateBody) (now : Nat) (db' : DB)
    (h : adminUpdateProduct db pid p now = .ok db') :
    ∃ pr0, findLive db pid = some pr0 ∧ updTx db pid pr0 p now = .ok db' := by
  unfold adminUpdateProduct at h
  rcases hf : findLive db pid with - | pr0
  · rw [hf] at h; cases h
  · rw [hf] at h
    dsimp only at h
    refine ⟨pr0, rfl, ?_⟩
    rcases hs : p.slug with - | s
    · rw [hs] at h; exact h
    · rw [hs] at h
      dsimp only at h
      by_cases hex : (!s.isEmpty && slugExists db s (some pid)) = true
      · rw [if_pos hex] at h; cases h
      · rw [if_neg hex] at h; exact h

/-- Inversion of a successful `updTx` into its four stages. -/
theorem updTx_ok_decomp (db : DB) (pid : Nat) (pr : ProductRow)
    (p : AdminProductUpdateBody) (now : Nat) (db' : DB)
    (h : updTx db pid pr p now = .ok db') :
    ∃ db3 abn vip db4 db5 pr2,
      syncAttrsOrLoad (deleteAttrs (syncMedia db pid p.media) pid p.deleted_attribute_ids)
        pid p.attributes = .ok (db3, abn, vip) ∧
      deleteVariantsStep db3 pid p.deleted_variant_ids = .ok db4 ∧
      syncVariantsOpt db4 pid (applyScalarFields pr p) p.variants abn vip now
        = .ok (db5, pr2) ∧
      db' = writeProduct db5 { pr2 with updated_at := now } := by
  unfold updTx at h
  dsimp only at h
  rcases h1 : syncAttrsOrLoad (deleteAttrs (syncMedia db pid p.media) pid
      p.deleted_attribute_ids) pid p.attributes with e | ⟨db3, abn, vip⟩
  · rw [h1] at h; cases h
  · rw [h1] at h
    dsimp only at h
    rcases h2 : deleteVariantsStep db3 pid p.deleted_variant_ids with e | db4
    · rw [h2] at h; cases h
    · rw [h2] at h
      dsimp only at h
      rcases h3 : syncVariantsOpt db4 pid (applyScalarFields pr p) p.variants abn vip now
          with e | ⟨db5, pr2⟩
      · rw [h3] at h; cases h
      · rw [h3] at h
        dsimp only at h
        injection h with h4
        exact ⟨db3, abn, vip, db4, db5, pr2, rfl, h2, h3, h4.symm⟩

/-- Inversion of a successful variant sync (payload variants present): the
checks passed, the upsert succeeded, and the product record was either left
alone (no variant rows remain) or refreshed from the surviving rows. -/
theorem syncVariantsOpt_ok_some (db : DB) (pid : Nat) (pr : ProductRow)
    (vs : List VariantDTO) (abn : List (String × Nat))
    (vip : List ((String × String) × Nat)) (now : Nat) (db2 : DB) (pr2 : ProductRow)
    (h : syncVariantsOpt db pid pr (some vs) abn vip now = .ok (db2, pr2)) :
    checkDupAndPrice vs [] = .ok () ∧
    skusInUse db (vs.map (fun v => v.sku))
      ((vs.filter (fun v => truthyNat v.id)).filterMap (fun v => v.id)) = [] ∧
    upsertVariants db pid abn vip now vs = .ok db2 ∧
    ((db2.variants.filter (fun v => v.product_id == pid) = [] ∧ pr2 = pr) ∨
      (∃ v0 vrest, db2.variants.filter (fun v => v.product_id == pid) = v0 :: vrest ∧
        pr2 = { pr with
          price := pyMin ((v0 :: vrest).map (fun rv => rv.price.getD 0)),
          sku := some v0.sku,
          stock := sumInt ((v0 :: vrest).map (fun v => v.stock)) })) := by
  unfold syncVariantsOpt at h
  dsimp only at h
  rcases hc : checkDupAndPrice vs [] with e | u
  · rw [hc] at h; cases h
  · cases u
    rw [hc] at h
    dsimp only at h
    by_cases he : (skusInUse db (vs.map (fun v => v.sku))
        ((vs.filter (fun v => truthyNat v.id)).filterMap (fun v => v.id))).isEmpty
    · rw [if_neg (by simp [he])] at h
      rcases hu : upsertVariants db pid abn vip now vs with e | db2'
      · rw [hu] at h; cases h
      · rw [hu] at h
        dsimp only at h
        rcases hfil : db2'.variants.filter (fun v => v.product_id == pid) with - | ⟨v0, vrest⟩
        · rw [hfil] at h
          dsimp only at h
          injection h with h'
          have hdb : db2' = db2 := congrArg Prod.fst h'
          have hpr : pr2 = pr := (congrArg Prod.snd h').symm
          subst hdb
          exact ⟨rfl, List.isEmpty_iff.mp he, rfl, Or.inl ⟨hfil, hpr⟩⟩
        · rw [hfil] at h
          dsimp only at h
          injection h with h'
          have hdb : db2' = db2 := congrArg Prod.fst h'
          have hpr := (congrArg Prod.snd h').symm
          subst hdb
          exact ⟨rfl, List.isEmpty_iff.mp he, rfl, Or.inr ⟨v0, vrest, hfil, hpr⟩⟩
    · rw [if_pos (by simp [he])] at h
      cases h

/-- After a successful update whose payload carried a variants list, the
stored product row has the recomputed legacy aggregates: price is the minimum
of `price or 0` over the product's surviving variant rows, sku the first
row's sku, stock the sum of stocks. -/
theorem adminUpdateProduct_aggregates (db : DB) (pid : Nat)
    (p : AdminProductUpdateBody) (now : Nat) (db' : DB) (vs : List VariantDTO)
    (hvs : p.variants = some vs)
    (hok : adminUpdateProduct db pid p now = .ok db')
    (v0 : VariantRow) (vrest : List VariantRow)
    (hvars : db'.variants.filter (fun v => v.product_id == pid) = v0 :: vrest) :
    ∃ prF, getById db' pid = some prF ∧
      prF.price = pyMin ((v0 :: vrest).map (fun rv => rv.price.getD 0)) ∧
      prF.sku = some v0.sku ∧
      prF.stock = sumInt ((v0 :: vrest).map (fun v => v.stock)) := by
  obtain ⟨pr0, hfind, htx⟩ := adminUpdateProduct_ok_inv _ _ _ _ _ hok
  obtain ⟨hget0, hid0, -⟩ := findLive_eq _ _ _ hfind
  obtain ⟨db3, abn, vip, db4, db5, pr2, hA, hD, hS, hW⟩ := updTx_ok_decomp _ _ _ _ _ _ htx
  rw [hvs] at hS
  obtain ⟨-, -, hu, hdisj⟩ := syncVariantsOpt_ok_some _ _ _ _ _ _ _ _ _ hS
  have hvar5 : db'.variants = db5.variants := by rw [hW]; rfl
  rw [hvar5] at hvars
  have hprod5 : db5.products = db.products := by
    rw [upsertVariants_products _ _ _ _ _ _ _ hu,
        deleteVariantsStep_products _ _ _ _ hD,
        syncAttrsOrLoad_products _ _ _ _ _ _ hA,
        deleteAttrs_products, syncMedia_products]
  rcases hdisj with ⟨hnil, -⟩ | ⟨w0, wrest, hfil, hpr2⟩
  · rw [hnil] at hvars; cases hvars
  · rw [hfil] at hvars
    injection hvars with e1 e2
    subst e1
    subst e2
    refine ⟨{ pr2 with updated_at := now }, ?_, ?_, ?_, ?_⟩
    · rw [hW]
      apply getById_writeProduct
      · rw [hpr2]; exact hid0
      · unfold getById at hget0 ⊢
        rw [hprod5, hget0]
        rfl
    · rw [hpr2]
    · rw [hpr2]
    · rw [hpr2]

/-- C1 counterexample: an update whose only variant change is
`deleted_variant_ids` succeeds but does **not** recompute the legacy
aggregates: product 1 keeps price 5 and stock 7 although its only surviving
variant has price 7 and stock 4 (so min price = 7 ≠ 5 and stock sum = 4 ≠ 7). -/
theorem C1_aggregates_counterexample :
    (adminUpdateProduct c1Db 1 c1Payload 9).map (fun d =>
      ((getById d 1).map (fun pr => (pr.price, pr.stock, pr.has_variants)),
       (d.variants.filter (fun v => v.product_id == 1)).map (fun v => (v.price, v.stock)))) =
      .ok (some (5, 7, true), [(some 7, 4)]) ∧
    (5 : ℚ) ≠ 7 ∧ (7 : Int) ≠ 4 := by
  exact ⟨rfl, by decide, by decide⟩

/-- C1 (amended): the legacy aggregates are recomputed only when the update
payload carries a `variants` list: in that case, after success the stored
product has price = min(variant price, treating a missing price as 0) and
stock = sum(variant stock) over its surviving variant rows; an update whose
only variant change is `deleted_variant_ids` (no `variants` key) leaves the
aggregates untouched, as the counterexample shows. -/
theorem C1_aggregates_amended :
    ∀ (db : DB) (pid : Nat) (p : AdminProductUpdateBody) (now : Nat) (db' : DB)
      (vs : List VariantDTO) (v0 : VariantRow) (vrest : List VariantRow),
      p.variants = some vs →
      adminUpdateProduct db pid p now = .ok db' →
      db'.variants.filter (fun v => v.product_id == pid) = v0 :: vrest →
      ∃ prF, getById db' pid = some prF ∧
        prF.price = pyMin ((v0 :: vrest).map (fun rv => rv.price.getD 0)) ∧
        prF.stock = sumInt ((v0 :: vrest).map (fun v => v.stock)) := by
  intro db pid p now db' vs v0 vrest hvs hok hvars
  obtain ⟨prF, h1, h2, -, h4⟩ :=
    adminUpdateProduct_aggregates db pid p now db' vs hvs hok v0 vrest hvars
  exact ⟨prF, h1, h2, h4⟩

/-- C1 witness: the amended aggregate property applied at a concrete update. -/
theorem C1_aggregates_amended_witness :
    ∃ prF, getById c1wDbAfter 1 = some prF ∧
      prF.price = pyMin ([mkVariant 10 1 "A" 6 2].map (fun rv => rv.price.getD 0)) ∧
      prF.stock = sumInt ([mkVariant 10 1 "A" 6 2].map (fun v => v.stock)) :=
  C1_aggregates_amended c1wDb 1 c1wPayload 3 c1wDbAfter
    [⟨some 10, "A", 6, none, none, 2, true, false, "active", [], none⟩]
    (mkVariant 10 1 "A" 6 2) [] rfl (by rfl) (by rfl)

/-- The attribute insertion loop of create leaves the products table
untouched. -/
theorem createAttrs_products (ats : List AttributeDTO) :
    ∀ (db : DB) (pid : Nat) abn vip,
      ((createAttrs db pid ats abn vip).1).products = db.products := by
  induction ats with
  | nil => intro db pid abn vip; rfl
  | cons a rest ih =>
    intro db pid abn vip
    simp only [createAttrs]
    rw [ih]
    exact (insertAttrValue_foldl_products _ _ _ _).trans rfl

/-- A successful variant insertion loop of create leaves the products table
untouched. -/
theorem createVariants_products (vs : List VariantDTO) :
    ∀ (db : DB) (pid : Nat) abn vip now db',
      createVariants db pid abn vip now vs = .ok db' →
      db'.products = db.products := by
  induction vs with
  | nil =>
    intro db pid abn vip now db' h
    simp only [createVariants] at h
    cases h
    rfl
  | cons v rest ih =>
    intro db pid abn vip now db' h
    simp only [createVariants] at h
    rcases hj : createJunctions db.nextVariantId abn vip v.attribute_values with e | juncs
    · rw [hj] at h; cases h
    · rw [hj] at h
      exact (ih _ _ _ _ _ _ h).trans rfl

/-- Inversion of a successful `adminCreateProduct`: the checks passed, the
product row was built from the first variant's sku and the price/stock
aggregates of the variant specs, and later stages do not touch the products
table. -/
theorem adminCreateProduct_ok_inv (db : DB) (p : AdminProductCreateBody)
    (now : Nat) (db' : DB) (pid' : Nat)
    (h : adminCreateProduct db p now = .ok (db', pid')) :
    ∃ v0 vrest, p.variants = v0 :: vrest ∧ pid' = db.nextProductId ∧
      db'.products = db.products ++
        [{ id := db.nextProductId, name := p.name, slug := p.slug,
           short_description := p.short_description,
           description := p.description, status := p.status,
           featured := p.featured, tags := some p.tags,
           has_variants := p.has_variants, deleted_at := none,
           price := pyMin ((v0 :: vrest).map (·.price)),
           sku := some v0.sku, is_active := p.status == "active",
           affiliate := none,
           stock := sumInt ((v0 :: vrest).map (·.stock)),
           brand := p.brand, pet_type := p.pet_type, season := p.season,
           height := some p.shipping.height, width := some p.shipping.width,
           length := some p.shipping.length, weight := some p.shipping.weight,
           category_id := some p.category_id, updated_at := now }] := by
  unfold adminCreateProduct at h
  rcases hv : validateCreatePayload p with e | u
  · rw [hv] at h; cases h
  · cases u
    rw [hv] at h
    dsimp only at h
    by_cases hs : slugExists db p.slug none = true
    · rw [if_pos hs] at h; cases h
    · rw [if_neg hs] at h
      by_cases hk : (skusInUse db (p.variants.map (·.sku)) []).isEmpty
      · rw [if_neg (by simp [hk])] at h
        rcases hvs : p.variants with - | ⟨v0, vrest⟩
        · rw [hvs] at h; cases h
        · rw [hvs] at h
          dsimp only at h
          rcases hc : createVariants (createAttrs
              { db with
                products := db.products ++ [_],
                nextProductId := db.nextProductId + 1,
                images := db.images ++ p.media.map (fun m =>
                  ⟨db.nextProductId, m.url, m.type, m.sort_order, m.sort_order == 1⟩) }
              db.nextProductId p.attributes [] []).1 db.nextProductId
              (createAttrs _ db.nextProductId p.attributes [] []).2.1
              (createAttrs _ db.nextProductId p.attributes [] []).2.2 now
              (v0 :: vrest) with e | db2
          · rw [hc] at h; cases h
          · rw [hc] at h
            dsimp only at h
            injection h with h'
            have hdb : db2 = db' := congrArg Prod.fst h'
            have hpid : pid' = db.nextProductId := (congrArg Prod.snd h').symm
            refine ⟨v0, vrest, rfl, hpid, ?_⟩
            rw [← hdb]
            rw [createVariants_products _ _ _ _ _ _ _ hc, createAttrs_products]
      · rw [if_pos (by simp [hk])] at h
        cases h

/-- `find?` skips a prefix on which it fails. -/
theorem find?_append_of_none {α : Type} {p : α → Bool} {l₁ l₂ : List α}
    (h : l₁.find? p = none) : (l₁ ++ l₂).find? p = l₂.find? p := by
  induction l₁ with
  | nil => rfl
  | cons a l ih =>
    rcases hpa : p a with - | -
    · rw [List.find?_cons_of_neg _ (by simp [hpa])] at h
      rw [List.cons_append, List.find?_cons_of_neg _ (by simp [hpa])]
      exact ih h
    · rw [List.find?_cons_of_pos _ hpa] at h
      cases h

/-- `_refresh_product_aggregates` leaves the variants table untouched. -/
theorem refreshProductAggregates_variants (db : DB) (pid now : Nat) :
    (refreshProductAggregates db pid now).variants = db.variants := by
  unfold refreshProductAggregates
  rcases hg : getById db pid with - | pr
  · rfl
  · dsimp only
    rcases (db.variants.filter (fun v => v.product_id == pid)) with - | ⟨w, ws⟩
    · rfl
    · rcases ((w :: ws).filterMap (fun v => v.price)) with - | ⟨q, qs⟩ <;> rfl

/-- After `_refresh_product_aggregates`, when the product has variant rows,
its stored sku is the first row's sku. -/
theorem refreshProductAggregates_sku (db : DB) (pid now : Nat) (pr : ProductRow)
    (hget : getById db pid = some pr)
    (v0 : VariantRow) (vrest : List VariantRow)
    (hfil : db.variants.filter (fun v => v.product_id == pid) = v0 :: vrest) :
    ∃ prF, getById (refreshProductAggregates db pid now) pid = some prF ∧
      prF.sku = some v0.sku := by
  have hid : pr.id = pid := by simpa using List.find?_some hget
  have hsome : (getById db pid).isSome := by rw [hget]; rfl
  unfold refreshProductAggregates
  rw [hget]
  dsimp only
  rw [hfil]
  dsimp only
  rcases hp : (v0 :: vrest).filterMap (fun v => v.price) with - | ⟨q, qs⟩
  · rw [hp]
    dsimp only
    exact ⟨_, getById_writeProduct _ _ _ hid hsome, rfl⟩
  · rw [hp]
    dsimp only
    exact ⟨_, getById_writeProduct _ _ _ hid hsome, rfl⟩

/-- C8 counterexample: after a successful create the legacy sku is the
*first* variant's sku ("HI"), not the cheapest variant's ("LO", price 5 < 10),
so the claim that sku mirrors the cheapest variant fails. -/
theorem C8_sku_counterexample :
    (adminCreateProduct emptyDB c8Payload 0).map (fun r =>
      ((getById r.1 r.2).map (fun pr => pr.sku),
       r.1.variants.map (fun v => (v.sku, v.price)))) =
      .ok (some (some "HI"), [("HI", some 10), ("LO", some 5)]) ∧
    ("HI" : String) ≠ "LO" ∧ (5 : ℚ) < 10 :=
  ⟨rfl, by decide, by decide⟩

/-- C8 (amended): after every successful create, update (with a variants
list) and variant patch, the product's legacy sku mirrors the **first**
variant's sku — the first variant spec on create, the first surviving
variant row on update and patch — not the cheapest variant's sku. -/
theorem C8_sku_amended :
    (∀ (db : DB) (p : AdminProductCreateBody) (now : Nat) (db' : DB) (pid' : Nat)
       (v0 : VariantDTO) (vrest : List VariantDTO),
      p.variants = v0 :: vrest →
      adminCreateProduct db p now = .ok (db', pid') →
      (∀ q ∈ db.products, q.id ≠ db.nextProductId) →
      ∃ prF, getById db' pid' = some prF ∧ prF.sku = some v0.sku) ∧
    (∀ (db : DB) (pid : Nat) (p : AdminProductUpdateBody) (now : Nat) (db' : DB)
       (vs : List VariantDTO) (v0 : VariantRow) (vrest : List VariantRow),
      p.variants = some vs →
      adminUpdateProduct db pid p now = .ok db' →
      db'.variants.filter (fun v => v.product_id == pid) = v0 :: vrest →
      ∃ prF, getById db' pid = some prF ∧ prF.sku = some v0.sku) ∧
    (∀ (db : DB) (vid : Nat) (pch : AdminVariantPatchBody) (now : Nat) (db' : DB)
       (v : VariantRow) (v0 : VariantRow) (vrest : List VariantRow),
      db.variants.find? (fun q => q.id == vid) = some v →
      adminPatchVariant db vid pch now = .ok db' →
      (getById db v.product_id).isSome →
      db'.variants.filter (fun q => q.product_id == v.product_id) = v0 :: vrest →
      ∃ prF, getById db' v.product_id = some prF ∧ prF.sku = some v0.sku) := by
  refine ⟨?_, ?_, ?_⟩
  · intro db p now db' pid' v0 vrest hvs hok hfresh
    obtain ⟨w0, wrest, hw, hpid, hprods⟩ := adminCreateProduct_ok_inv _ _ _ _ _ hok
    rw [hvs] at hw
    injection hw with e1 e2
    subst e1; subst e2
    refine ⟨{ id := db.nextProductId, name := p.name, slug := p.slug,
              short_description := p.short_description, description := p.description,
              status := p.status, featured := p.featured, tags := some p.tags,
              has_variants := p.has_variants, deleted_at := none,
              price := pyMin ((v0 :: vrest).map (fun x => x.price)), sku := some v0.sku,
              is_active := p.status == "active", affiliate := none,
              stock := sumInt ((v0 :: vrest).map (fun x => x.stock)), brand := p.brand,
              pet_type := p.pet_type, season := p.season,
              height := some p.shipping.height, width := some p.shipping.width,
              length := some p.shipping.length, weight := some p.shipping.weight,
              category_id := some p.category_id, updated_at := now }, ?_, rfl⟩
    unfold getById
    rw [hprods]
    have hl : db.products.find? (fun q => q.id == pid') = none := by
      apply List.find?_eq_none.mpr
      intro q hq
      simpa [hpid] using hfresh q hq
    rw [find?_append_of_none hl]
    exact List.find?_cons_of_pos _ (by simp [hpid])
  · intro db pid p now db' vs v0 vrest hvs hok hvars
    obtain ⟨prF, h1, -, h3, -⟩ :=
      adminUpdateProduct_aggregates db pid p now db' vs hvs hok v0 vrest hvars
    exact ⟨prF, h1, h3⟩
  · intro db vid pch now db' v v0 vrest hfindv hok hsome hfil
    unfold adminPatchVariant at hok
    rw [hfindv] at hok
    dsimp only at hok
    by_cases h1 : (match pch.price with | some q => decide (q ≤ 0) | none => false) = true
    · rw [if_pos h1] at hok; cases hok
    · rw [if_neg h1] at hok
      by_cases h2 : (match pch.cost_price with | some q => decide (q < 0) | none => false) = true
      · rw [if_pos h2] at hok; cases hok
      · rw [if_neg h2] at hok
        by_cases h3 : (match pch.stock with | some n => decide (n < 0) | none => false) = true
        · rw [if_pos h3] at hok; cases hok
        · rw [if_neg h3] at hok
          injection hok with h'
          subst h'
          rw [refreshProductAggregates_variants] at hfil
          rcases hg : getById db v.product_id with - | pr
          · rw [hg] at hsome; cases hsome
          · exact refreshProductAggregates_sku _ _ _ pr (by exact hg) v0 vrest hfil

/-- C8 witness: the amended first-variant rule applied at a concrete create. -/
theorem C8_sku_amended_witness :
    ∃ prF, getById c8DbAfter 1 = some prF ∧ prF.sku = some "HI" :=
  C8_sku_amended.1 emptyDB c8Payload 0 c8DbAfter 1
    ⟨none, "HI", 10, none, none, 1, true, false, "active", [], none⟩
    [⟨none, "LO", 5, none, none, 1, true, false, "active", [], none⟩]
    rfl (by rfl) (by intro q hq; simp [emptyDB] at hq)

/-- Media sync leaves the attributes table untouched. -/
theorem syncMedia_attributes (db : DB) (pid : Nat) (m : Option (List MediaItemDTO)) :
    (syncMedia db pid m).attributes = db.attributes := by
  cases m <;> rfl

/-- Media sync leaves the attribute-values table untouched. -/
theorem syncMedia_attributeValues (db : DB) (pid : Nat) (m : Option (List MediaItemDTO)) :
    (syncMedia db pid m).attributeValues = db.attributeValues := by
  cases m <;> rfl

/-- Deleting an empty id list is a no-op. -/
theorem deleteAttrs_nil (db : DB) (pid : Nat) : deleteAttrs db pid [] = db := by
  unfold deleteAttrs
  rfl

/-- The stored lookup tables only read the attribute tables. -/
theorem loadLookup_congr (db1 db2 : DB) (pid : Nat)
    (ha : db1.attributes = db2.attributes)
    (hv : db1.attributeValues = db2.attributeValues) :
    loadLookup db1 pid = loadLookup db2 pid := by
  unfold loadLookup
  rw [ha, hv]

/-- A key resolvable after the attribute-value insertion fold was either
already resolvable or is one of the inserted (name, value) pairs. -/
theorem insertAttrValue_foldl_lookup (aid : Nat) (name : String)
    (values : List String) :
    ∀ (acc : DB × List ((String × String) × Nat)) (key : String × String),
      (alistGet ((values.foldl (insertAttrValue aid name) acc).2) key).isSome →
      (alistGet acc.2 key).isSome ∨ (key.1 = name ∧ key.2 ∈ values) := by
  induction values with
  | nil => intro acc key h; exact Or.inl h
  | cons val rest ih =>
    intro acc key h
    rcases ih (insertAttrValue aid name acc val) key h with hin | ⟨h1, h2⟩
    · unfold insertAttrValue at hin
      dsimp only at hin
      unfold alistGet at hin
      by_cases hk : (name, val) = key
      · exact Or.inr ⟨by rw [← hk], by rw [← hk]; simp⟩
      · rw [if_neg hk] at hin
        exact Or.inl hin
    · exact Or.inr ⟨h1, by simp [h2]⟩

/-- A key resolvable after a successful attribute sync was either already
resolvable or is declared by some attribute spec of the payload. -/
theorem syncAttrsList_lookup (ats : List AttributeDTO) :
    ∀ (db : DB) (pid : Nat) abn vip db' abn' vip',
      syncAttrsList db pid abn vip ats = .ok (db', abn', vip') →
      ∀ key : String × String,
        (alistGet vip' key).isSome →
        (alistGet vip key).isSome ∨ ∃ a ∈ ats, a.name = key.1 ∧ key.2 ∈ a.values := by
  induction ats with
  | nil =>
    intro db pid abn vip db' abn' vip' h key hk
    simp only [syncAttrsList] at h
    cases h
    exact Or.inl hk
  | cons a rest ih =>
    intro db pid abn vip db' abn' vip' h key hk
    simp only [syncAttrsList] at h
    have step :
        ∀ (dbx : DB) (aidx : Nat),
          syncAttrsList (replaceAttrValues dbx aidx a.name a.values vip).1 pid
            ((a.name, aidx) :: abn) (replaceAttrValues dbx aidx a.name a.values vip).2 rest
            = .ok (db', abn', vip') →
          (alistGet vip key).isSome ∨ ∃ x ∈ a :: rest, x.name = key.1 ∧ key.2 ∈ x.values := by
      intro dbx aidx hrec
      rcases ih _ _ _ _ _ _ _ hrec key hk with hin | ⟨x, hx, h1, h2⟩
      · unfold replaceAttrValues at hin
        rcases insertAttrValue_foldl_lookup aidx a.name a.values _ key hin with hin' | ⟨h1, h2⟩
        · exact Or.inl hin'
        · exact Or.inr ⟨a, by simp, h1.symm, h2⟩
      · exact Or.inr ⟨x, by simp [hx], h1, h2⟩
    by_cases ht : truthyNat a.id
    · rw [if_pos ht] at h
      rcases hf : db.attributes.find? (fun r => r.product_id == pid && some r.id == a.id)
          with - | row
      · rw [hf] at h; cases h
      · rw [hf] at h
        exact step _ row.id h
    · rw [if_neg ht] at h
      exact step _ db.nextAttributeId h

/-- Generic fold that prepends one binding per element: a resolvable key was
already resolvable or comes from one of the elements. -/
theorem foldl_prepend_lookup {β : Type} (f : β → (String × String) × Nat)
    (l : List β) :
    ∀ (start : List ((String × String) × Nat)) (key : String × String),
      (alistGet (l.foldl (fun vip b => (f b) :: vip) start) key).isSome →
      (alistGet start key).isSome ∨ ∃ b ∈ l, (f b).1 = key := by
  induction l with
  | nil => intro start key h; exact Or.inl h
  | cons b rest ih =>
    intro start key h
    rcases ih ((f b) :: start) key h with hin | ⟨c, hc, hcf⟩
    · unfold alistGet at hin
      by_cases hk : (f b).1 = key
      · exact Or.inr ⟨b, by simp, hk⟩
      · rw [if_neg hk] at hin
        exact Or.inl hin
    · exact Or.inr ⟨c, by simp [hc], hcf⟩

/-- Every key resolvable through the stored lookup tables names an
(attribute, value) pair persisted for the product. -/
theorem loadLookup_keys (db : DB) (pid : Nat) (key : String × String)
    (h : (alistGet (loadLookup db pid).2 key).isSome) :
    ∃ a ∈ db.attributes, a.product_id = pid ∧ a.name = key.1 ∧
      ∃ av ∈ db.attributeValues, av.attribute_id = a.id ∧ av.value = key.2 := by
  unfold loadLookup at h
  have main :
      ∀ (l : List AttributeRow) (acc : List (String × Nat) × List ((String × String) × Nat)),
        (∀ a ∈ l, a ∈ db.attributes ∧ a.product_id = pid) →
        (alistGet ((l.foldl (fun acc a =>
          ((a.name, a.id) :: acc.1,
           (db.attributeValues.filter (fun v => v.attribute_id == a.id)).foldl
             (fun vip (v : AttributeValueRow) => ((a.name, v.value), v.id) :: vip)
             acc.2)) acc).2) key).isSome →
        (alistGet acc.2 key).isSome ∨
          ∃ a ∈ db.attributes, a.product_id = pid ∧ a.name = key.1 ∧
            ∃ av ∈ db.attributeValues, av.attribute_id = a.id ∧ av.value = key.2 := by
    intro l
    induction l with
    | nil => intro acc hmem h; exact Or.inl h
    | cons a rest ih =>
      intro acc hmem h
      rcases ih _ (fun x hx => hmem x (by simp [hx])) h with hin | hex
      · dsimp only at hin
        rcases foldl_prepend_lookup (fun (v : AttributeValueRow) => ((a.name, v.value), v.id))
            _ _ _ hin with hin' | ⟨av, hav, havk⟩
        · exact Or.inl hin'
        · obtain ⟨hmem1, hmem2⟩ := hmem a (by simp)
          obtain ⟨hav1, hav2⟩ := List.mem_filter.mp hav
          refine Or.inr ⟨a, hmem1, hmem2, ?_, av, hav1, by simpa using hav2, ?_⟩
          · exact congrArg Prod.fst havk
          · have := congrArg Prod.snd havk
            simpa using this
      · exact Or.inr hex
  rcases main (db.attributes.filter (fun a => a.product_id == pid)) ([], [])
      (fun a ha => by
        obtain ⟨h1, h2⟩ := List.mem_filter.mp ha
        exact ⟨h1, by simpa using h2⟩) h with hin | hex
  · simp [alistGet] at hin
  · exact hex

/-- A successful junction replacement resolved every reference. -/
theorem updateJunctions_resolves (vid : Nat) (abn : List (String × Nat))
    (vip : List ((String × String) × Nat)) :
    ∀ (pairs : List (String × String)) (rows : List VavRow),
      updateJunctions vid abn vip pairs = .ok rows →
      ∀ pr ∈ pairs, (alistGet vip pr).isSome := by
  intro pairs
  induction pairs with
  | nil => intro rows _ pr hpr; cases hpr
  | cons q rest ih =>
    intro rows h pr hpr
    simp only [updateJunctions] at h
    rcases hq : alistGet vip (q.1, q.2) with - | valId
    · rw [hq] at h; cases h
    · rw [hq] at h
      dsimp only at h
      rcases hr : updateJunctions vid abn vip rest with e | rows'
      · rw [hr] at h; cases h
      · rcases List.mem_cons.mp hpr with rfl | hpr'
        · simp [hq]
        · exact ih rows' hr pr hpr'

/-- A successful variant upsert resolved every attribute-value reference of
every variant spec. -/
theorem upsertVariants_resolves (vs : List VariantDTO) :
    ∀ (db : DB) (pid : Nat) abn vip now db',
      upsertVariants db pid abn vip now vs = .ok db' →
      ∀ v ∈ vs, ∀ pr ∈ v.attribute_values, (alistGet vip pr).isSome := by
  induction vs with
  | nil => intro db pid abn vip now db' h v hv; cases hv
  | cons v rest ih =>
    intro db pid abn vip now db' h w hw pr hpr
    simp only [upsertVariants] at h
    by_cases ht : truthyNat v.id
    · rw [if_pos ht] at h
      rcases hf : db.variants.find? (fun r => r.product_id == pid && some r.id == v.id)
          with - | r
      · rw [hf] at h; cases h
      · rw [hf] at h
        dsimp only at h
        rcases hj : updateJunctions r.id abn vip v.attribute_values with e | juncs
        · rw [hj] at h; cases h
        · rw [hj] at h
          rcases List.mem_cons.mp hw with rfl | hw'
          · exact updateJunctions_resolves _ _ _ _ _ hj pr hpr
          · exact ih _ _ _ _ _ _ h w hw' pr hpr
    · rw [if_neg ht] at h
      dsimp only at h
      cases h

/-- C2 counterexample: the pair (Size, S) exists for the product and Size is
not being deleted, yet the update fails with `ATTRIBUTE_VALUE_INVALID`,
because when the payload's `attributes` list is present the resolution table
is built from the payload alone and stored pairs of untouched attributes do
not resolve. -/
theorem C2_attribute_resolution_counterexample :
    adminUpdateProduct c2Db 1 c2Payload 9 =
      .error ⟨"ATTRIBUTE_VALUE_INVALID", "Invalid value for Size: S", 400⟩ ∧
    (∃ a ∈ c2Db.attributes, a.product_id = 1 ∧ a.name = "Size" ∧
      ∃ av ∈ c2Db.attributeValues, av.attribute_id = a.id ∧ av.value = "S") ∧
    c2Payload.deleted_attribute_ids = [] :=
  ⟨rfl, ⟨⟨20, 1, "Size"⟩, by decide, rfl, rfl, ⟨30, 20, "S"⟩, by decide, rfl, rfl⟩, rfl⟩

/-- C2 (amended): on update, when the payload carries an `attributes` list,
every attribute-value reference of every variant spec must be declared in
that list — stored pairs belonging to attributes absent from the list do not
resolve, although the attribute rows themselves are left untouched; only
when `attributes` is omitted do the references resolve against the stored
(attribute, value) pairs of the product; an unresolvable reference fails the
whole update with `ATTRIBUTE_VALUE_INVALID`. -/
theorem C2_attribute_resolution_amended :
    (∀ (db : DB) (pid : Nat) (p : AdminProductUpdateBody) (now : Nat)
       (ats : List AttributeDTO) (vs : List VariantDTO),
      p.attributes = some ats →
      p.variants = some vs →
      (adminUpdateProduct db pid p now).isOk = true →
      ∀ v ∈ vs, ∀ pr ∈ v.attribute_values,
        ∃ a ∈ ats, a.name = pr.1 ∧ pr.2 ∈ a.values) ∧
    (∀ (db : DB) (pid : Nat) (p : AdminProductUpdateBody) (now : Nat)
       (vs : List VariantDTO),
      p.attributes = none →
      p.deleted_attribute_ids = [] →
      p.variants = some vs →
      (adminUpdateProduct db pid p now).isOk = true →
      ∀ v ∈ vs, ∀ pr ∈ v.attribute_values,
        ∃ a ∈ db.attributes, a.product_id = pid ∧ a.name = pr.1 ∧
          ∃ av ∈ db.attributeValues, av.attribute_id = a.id ∧ av.value = pr.2) := by
  constructor
  · intro db pid p now ats vs hats hvs hok v hv pr hpr
    rcases hr : adminUpdateProduct db pid p now with e | db'
    · rw [hr] at hok; cases hok
    · obtain ⟨pr0, hfind, htx⟩ := adminUpdateProduct_ok_inv _ _ _ _ _ hr
      obtain ⟨db3, abn, vip, db4, db5, pr2, hA, hD, hS, -⟩ := updTx_ok_decomp _ _ _ _ _ _ htx
      rw [hvs] at hS
      obtain ⟨-, -, hu, -⟩ := syncVariantsOpt_ok_some _ _ _ _ _ _ _ _ _ hS
      have hres := upsertVariants_resolves _ _ _ _ _ _ _ hu v hv pr hpr
      rw [hats] at hA
      have hA' : syncAttrsList (deleteAttrs (syncMedia db pid p.media) pid
          p.deleted_attribute_ids) pid [] [] ats = .ok (db3, abn, vip) := hA
      rcases syncAttrsList_lookup _ _ _ _ _ _ _ _ hA' pr hres with hin | hex
      · simp [alistGet] at hin
      · exact hex
  · intro db pid p now vs hats hdel hvs hok v hv pr hpr
    rcases hr : adminUpdateProduct db pid p now with e | db'
    · rw [hr] at hok; cases hok
    · obtain ⟨pr0, hfind, htx⟩ := adminUpdateProduct_ok_inv _ _ _ _ _ hr
      obtain ⟨db3, abn, vip, db4, db5, pr2, hA, hD, hS, -⟩ := updTx_ok_decomp _ _ _ _ _ _ htx
      rw [hvs] at hS
      obtain ⟨-, -, hu, -⟩ := syncVariantsOpt_ok_some _ _ _ _ _ _ _ _ _ hS
      have hres := upsertVariants_resolves _ _ _ _ _ _ _ hu v hv pr hpr
      rw [hats] at hA
      simp only [syncAttrsOrLoad] at hA
      injection hA with hA'
      have hvip : (loadLookup (deleteAttrs (syncMedia db pid p.media) pid
          p.deleted_attribute_ids) pid).2 = vip := by
        have := congrArg (fun t => t.2.2) hA'
        simpa using this
      rw [← hvip] at hres
      have htrans : loadLookup (deleteAttrs (syncMedia db pid p.media) pid
          p.deleted_attribute_ids) pid = loadLookup db pid := by
        apply loadLookup_congr
        · rw [hdel, deleteAttrs_nil, syncMedia_attributes]
        · rw [hdel, deleteAttrs_nil, syncMedia_attributeValues]
      rw [htrans] at hres
      exact loadLookup_keys db pid pr hres

/-- C2 witness: the payload-declared pair is the one a successful update
resolved. -/
theorem C2_attribute_resolution_amended_witness :
    ∃ a ∈ [(⟨none, "Color", ["Red"]⟩ : AttributeDTO)],
      a.name = "Color" ∧ "Red" ∈ a.values :=
  C2_attribute_resolution_amended.1 c2wDb 1 c2wPayload 7
    [⟨none, "Color", ["Red"]⟩]
    [⟨some 10, "A", 5, none, none, 1, true, false, "active", [("Color", "Red")], none⟩]
    rfl rfl (by rfl)
    ⟨some 10, "A", 5, none, none, 1, true, false, "active", [("Color", "Red")], none⟩
    (by decide) ("Color", "Red") (by decide)

/-- A successful bulk action keeps the row's id. -/
theorem applyBulkAction_id (pr : ProductRow) (a : BulkAction)
    (d : List (String × JVal)) (now : Nat) (pr' : ProductRow)
    (h : applyBulkAction pr a d now = some pr') : pr'.id = pr.id := by
  cases a <;> simp only [applyBulkAction] at h
  all_goals repeat' split at h
  all_goals cases h
  all_goals rfl

/-- For an id other than the written row's, `getById` is unchanged by
`writeProduct`. -/
theorem getById_writeProduct_ne (db : DB) (pr' : ProductRow) (j : Nat)
    (h : pr'.id ≠ j) :
    getById (writeProduct db pr') j = getById db j := by
  unfold getById writeProduct
  dsimp only
  induction db.products with
  | nil => rfl
  | cons q rest ih =>
    simp only [List.map_cons]
    by_cases hq : (q.id == pr'.id) = true
    · rw [if_pos hq]
      have hqj : ¬((q.id == j) = true) := by
        simp only [beq_iff_eq] at hq ⊢
        rw [hq]; exact h
      rw [List.find?_cons_of_neg _ (by simpa using h), List.find?_cons_of_neg _ (by exact hqj)]
      exact ih
    · rw [if_neg hq]
      by_cases hqj : (q.id == j) = true
      · rw [List.find?_cons_of_pos _ (by exact hqj), List.find?_cons_of_pos _ (by exact hqj)]
      · rw [List.find?_cons_of_neg _ (by exact hqj), List.find?_cons_of_neg _ (by exact hqj)]
        exact ih

/-- One successful bulk iteration does not change how any *other* id
resolves or validates. -/
theorem bulkGood_writeProduct (db : DB) (action : BulkAction)
    (data : List (String × JVal)) (now : Nat) (pr' : ProductRow) (j : Nat)
    (h : pr'.id ≠ j) :
    bulkGood (writeProduct db pr') action data now j = bulkGood db action data now j ∧
    bulkReason (writeProduct db pr') j = bulkReason db j := by
  unfold bulkGood bulkReason
  rw [getById_writeProduct_ne db pr' j h]
  exact ⟨rfl, rfl⟩

/-- The per-id loop of the bulk endpoint counts exactly the good ids in
`updated` and appends one `(id, reason)` entry per bad id, in order. -/
theorem bulkLoop_spec (action : BulkAction) (data : List (String × JVal))
    (now : Nat) (ids : List Nat) :
    ∀ (db : DB) (updated : Nat) (failed : List (Nat × String)),
      ids.Nodup →
      (bulkLoop action data now ids db updated failed).2.1 =
        updated + (ids.filter (bulkGood db action data now)).length ∧
      (bulkLoop action data now ids db updated failed).2.2 =
        failed ++ (ids.filter (fun i => !bulkGood db action data now i)).map
          (fun i => (i, bulkReason db i)) := by
  induction ids with
  | nil => intro db updated failed _; simp [bulkLoop]
  | cons i rest ih =>
    intro db updated failed hnd
    have hnd' := List.nodup_cons.mp hnd
    simp only [bulkLoop]
    rcases hg : getById db i with - | pr
    · dsimp only
      have hbad : bulkGood db action data now i = false := by
        unfold bulkGood; rw [hg]
      have hreason : bulkReason db i = "NOT_FOUND" := by
        unfold bulkReason; rw [hg]
      obtain ⟨ih1, ih2⟩ := ih db updated (failed ++ [(i, "NOT_FOUND")]) hnd'.2
      refine ⟨?_, ?_⟩
      · rw [ih1, List.filter_cons_of_neg (by simp [hbad])]
      · rw [ih2, List.filter_cons_of_pos (by simp [hbad]), List.map_cons, hreason,
            List.append_assoc, List.singleton_append]
    · dsimp only
      by_cases hd : pr.deleted_at ≠ none
      · rw [if_pos hd]
        have hbad : bulkGood db action data now i = false := by
          unfold bulkGood; rw [hg]; dsimp only; rw [if_pos hd]
        have hreason : bulkReason db i = "NOT_FOUND" := by
          unfold bulkReason; rw [hg]; dsimp only; rw [if_pos hd]
        obtain ⟨ih1, ih2⟩ := ih db updated (failed ++ [(i, "NOT_FOUND")]) hnd'.2
        refine ⟨?_, ?_⟩
        · rw [ih1, List.filter_cons_of_neg (by simp [hbad])]
        · rw [ih2, List.filter_cons_of_pos (by simp [hbad]), List.map_cons, hreason,
              List.append_assoc, List.singleton_append]
      · rw [if_neg hd]
        rcases ha : applyBulkAction pr action data now with - | pr'
        · have hbad : bulkGood db action data now i = false := by
            unfold bulkGood; rw [hg]; dsimp only; rw [if_neg hd, ha]; rfl
          have hreason : bulkReason db i = "INVALID_DATA" := by
            unfold bulkReason; rw [hg]; dsimp only; rw [if_neg hd]
          obtain ⟨ih1, ih2⟩ := ih db updated (failed ++ [(i, "INVALID_DATA")]) hnd'.2
          refine ⟨?_, ?_⟩
          · rw [ih1, List.filter_cons_of_neg (by simp [hbad])]
          · rw [ih2, List.filter_cons_of_pos (by simp [hbad]), List.map_cons, hreason,
                List.append_assoc, List.singleton_append]
        · have hgood : bulkGood db action data now i = true := by
            unfold bulkGood; rw [hg]; dsimp only; rw [if_neg hd, ha]; rfl
          have hprid : pr'.id ≠ i → False := by
            intro hne
            have h1 : pr.id = i := by simpa using List.find?_some hg
            exact hne ((applyBulkAction_id _ _ _ _ _ ha).trans h1)
          have hid : ∀ j ∈ rest, pr'.id ≠ j := by
            intro j hj hji
            have h1 : pr.id = i := by simpa using List.find?_some hg
            have : i = j := by
              rw [← (applyBulkAction_id _ _ _ _ _ ha).trans h1]; exact hji
            exact hnd'.1 (this ▸ hj)
          obtain ⟨ih1, ih2⟩ := ih (writeProduct db pr') (updated + 1) failed hnd'.2
          have hfeq : rest.filter (bulkGood (writeProduct db pr') action data now) =
              rest.filter (bulkGood db action data now) :=
            List.filter_congr (fun j hj =>
              (bulkGood_writeProduct db action data now pr' j (hid j hj)).1)
          have hfeq2 : rest.filter (fun j => !bulkGood (writeProduct db pr') action data now j) =
              rest.filter (fun j => !bulkGood db action data now j) :=
            List.filter_congr (fun j hj => by
              rw [(bulkGood_writeProduct db action data now pr' j (hid j hj)).1])
          have hmeq : ∀ j ∈ rest.filter (fun j => !bulkGood db action data now j),
              (j, bulkReason (writeProduct db pr') j) = (j, bulkReason db j) := by
            intro j hj
            have hjr : j ∈ rest := (List.mem_filter.mp hj).1
            rw [(bulkGood_writeProduct db action data now pr' j (hid j hjr)).2]
          refine ⟨?_, ?_⟩
          · rw [ih1, hfeq, List.filter_cons_of_pos (by simp [hgood])]
            simp [Nat.add_assoc, Nat.add_comm 1]
          · rw [ih2, hfeq2, List.filter_cons_of_neg (by simp [hgood]),
                List.map_congr_left hmeq]

/-- C4: for every bulk request with at most 500 (distinct) ids, the batch is
not aborted: each id that does not resolve to a live product or whose action
data fails validation is recorded in `failed` with reason `NOT_FOUND` or
`INVALID_DATA`, and exactly the remaining ids are mutated and counted in
`updated`; on the claim's example `ids=[1,2,999]` with a valid status action
and 999 absent, the result is `updated=2`, `failed=[(999, NOT_FOUND)]`. -/
theorem C4_bulk_partial_failure :
    (∀ (db : DB) (p : AdminBulkProductsBody) (now : Nat),
      p.ids ≠ [] → p.ids.length ≤ 500 → p.ids.Nodup →
      ∃ db', adminBulkProducts db p now =
        .ok (db', (p.ids.filter (bulkGood db p.action p.data now)).length,
             (p.ids.filter (fun i => !bulkGood db p.action p.data now i)).map
               (fun i => (i, bulkReason db i)))) ∧
    (adminBulkProducts c4Db c4Payload 5).map (fun r => (r.2.1, r.2.2)) =
      .ok (2, [(999, "NOT_FOUND")]) := by
  constructor
  · intro db p now hne hlen hnd
    unfold adminBulkProducts
    rw [if_neg (by simpa [List.isEmpty_iff] using hne)]
    rw [if_neg (by omega)]
    obtain ⟨h1, h2⟩ := bulkLoop_spec p.action p.data now p.ids db 0 [] hnd
    refine ⟨(bulkLoop p.action p.data now p.ids db 0 []).1, ?_⟩
    have h1' : (bulkLoop p.action p.data now p.ids db 0 []).2.1 =
        (p.ids.filter (bulkGood db p.action p.data now)).length := by
      rw [h1]; exact Nat.zero_add _
    have h2' : (bulkLoop p.action p.data now p.ids db 0 []).2.2 =
        (p.ids.filter (fun i => !bulkGood db p.action p.data now i)).map
          (fun i => (i, bulkReason db i)) := by
      rw [h2]; exact List.nil_append _
    exact congrArg Except.ok (Prod.ext rfl (Prod.ext h1' h2'))
  · rfl

/-- C4 witness: the characterization applied at the claim's example. -/
theorem C4_bulk_partial_failure_witness :
    (adminBulkProducts c4Db c4Payload 7).map (fun r => (r.2.1, r.2.2)) =
      .ok (2, [(999, "NOT_FOUND")]) := by
  obtain ⟨db', h⟩ :=
    C4_bulk_partial_failure.1 c4Db c4Payload 7 (by decide) (by decide) (by decide)
  rw [h]
  rfl

/-- C3: an update whose `deleted_variant_ids` contains a variant id
referenced by a historical order line fails with `VARIANT_HAS_ORDERS` / 409
(and, the result being an error, no part of the payload is applied — the
transaction rolls back). Hypotheses: the product resolves, the optional slug
does not collide, and the payload does not carry an `attributes` list (whose
own id-resolution errors would otherwise fire first). -/
theorem C3_variant_has_orders_conflict :
    ∀ (db : DB) (pid : Nat) (pr : ProductRow) (p : AdminProductUpdateBody) (now : Nat),
      findLive db pid = some pr →
      (p.slug = none ∨ ∀ s, p.slug = some s → slugExists db s (some pid) = false) →
      p.attributes = none →
      (∃ vid ∈ p.deleted_variant_ids, ∃ oi ∈ db.orderItems, oi.product_variant_id = some vid) →
      adminUpdateProduct db pid p now =
        .error ⟨"VARIANT_HAS_ORDERS", "Cannot delete variant that has order items", 409⟩ := by
  intro db pid pr p now hfind hslug hattr hdel
  have hmain : updTx db pid pr p now =
      .error ⟨"VARIANT_HAS_ORDERS", "Cannot delete variant that has order items", 409⟩ := by
    unfold updTx
    rw [hattr]
    simp only [syncAttrsOrLoad]
    have ho : (deleteAttrs (syncMedia db pid p.media) pid p.deleted_attribute_ids).orderItems
        = db.orderItems := by
      rw [deleteAttrs_orderItems, syncMedia_orderItems]
    have hvho : deleteVariantsStep
        (deleteAttrs (syncMedia db pid p.media) pid p.deleted_attribute_ids)
        pid p.deleted_variant_ids =
        .error ⟨"VARIANT_HAS_ORDERS", "Cannot delete variant that has order items", 409⟩ := by
      unfold deleteVariantsStep
      rcases hdel with ⟨vid, hvid, hoi⟩
      rw [if_neg (by simp [List.isEmpty_iff]; exact List.ne_nil_of_mem hvid)]
      rw [if_pos]
      rw [orderRefsCount_congr _ db _ ho]
      exact orderRefsCount_pos db _ ⟨vid, hvid, hoi⟩
    rw [hvho]
  unfold adminUpdateProduct
  rw [hfind]
  rcases hps : p.slug with - | s
  · simpa using hmain
  · have hfalse : slugExists db s (some pid) = false := by
      rcases hslug with hnone | hforall
      · rw [hps] at hnone; cases hnone
      · exact hforall s hps
    simp [hfalse, hmain]

/-- C3 witness: a concrete store where deleting an ordered variant is
refused. -/
theorem C3_variant_has_orders_conflict_witness :
    adminUpdateProduct
      { emptyDB with
          products := [mkProduct 1 "P" "p" none 5 3 true (some "A")],
          variants := [mkVariant 10 1 "A" 5 3],
          orderItems := [⟨100, some 10⟩],
          nextProductId := 2, nextVariantId := 11 }
      1 { emptyUpdate with deleted_variant_ids := [10] } 7 =
      .error ⟨"VARIANT_HAS_ORDERS", "Cannot delete variant that has order items", 409⟩ :=
  C3_variant_has_orders_conflict _ 1 (mkProduct 1 "P" "p" none 5 3 true (some "A"))
    _ 7 (by rfl) (Or.inl rfl) rfl ⟨10, by decide, ⟨100, some 10⟩, by decide, rfl⟩

